import Mathlib

/-!
Verification of the `check-gosnmp-cpu` Icinga plugin (package `cpu`,
file `cpu/cpu.go`).  The Go code is shallowly embedded: SNMP result maps
become association lists, the external `icingahelper` check object
becomes an explicit record of appended performance records and status
messages, the external `AlarmLevel` threshold evaluator becomes an
abstract function parameter, and the SNMP session becomes a pair of
oracle functions for `Walk` and `Get`.  Machine integers are modelled by
`Int`/`Nat`; the single floating-point computation
(`math.Round(float64(sum)/float64(cnt))`) is modelled by exact rational
rounding (round half away from zero), and `%.2f` formatting of `v/100`
is modelled by exact two-decimal printing.
-/

/-- Model of `snmphelper.SnmpOut` values: the typed SNMP value struct.
Absent struct fields read as Go zero values, hence the defaults. -/
structure SnmpValue where
  Integer : Int := 0
  Gauge32 : Nat := 0
  OctetString : String := ""
  ObjectIdentifier : String := ""
deriving DecidableEq

/-- Model of a Go `map[string]snmphelper.SnmpOut` result set: an
association list from OID string to value (the list order stands for the
map's enumeration order, which Go leaves unspecified). -/
abbrev SnmpOut := List (String × SnmpValue)

/-- Association-list lookup (Go `v, ok := m[k]`). -/
def alookup {α : Type} : List (String × α) → String → Option α
  | [], _ => none
  | p :: m, k => if p.1 = k then some p.2 else alookup m k

/-- Go map indexing `m[k]` which yields the zero value when absent. -/
def SnmpOut.getD (res : SnmpOut) (oid : String) : SnmpValue :=
  (alookup res oid).getD {}

/-- Keys of an association list. -/
def akeys {α : Type} (m : List (String × α)) : List String :=
  m.map Prod.fst

/-- Go map assignment `m[k] = v`: replace the binding if the key is
present, otherwise append a fresh binding. -/
def upsert {α : Type} (m : List (String × α)) (k : String) (v : α) :
    List (String × α) :=
  if k ∈ akeys m then m.map (fun p => if p.1 = k then (k, v) else p)
  else m ++ [(k, v)]

/-- Model of one `icingahelper` performance-data record
(label, value, unit of measure, warn, crit, min, max — all strings,
exactly as the Go code passes them). -/
structure PerfData where
  label : String
  value : String
  uom : String
  warn : String
  crit : String
  lo : String
  hi : String
deriving DecidableEq

/-- Model of one `icingahelper` status message: severity level
(0 OK, 1 WARNING, 2 CRITICAL, 3 UNKNOWN) and text. -/
structure Msg where
  level : Nat
  text : String
deriving DecidableEq

/-- Model of the `icingahelper.IcingaCheck` accumulator: the sequences of
appended performance records and status messages. -/
structure IcingaCheck where
  perfData : List PerfData
  msgs : List Msg
deriving DecidableEq

def IcingaCheck.addPerf (c : IcingaCheck) (p : PerfData) : IcingaCheck :=
  { c with perfData := c.perfData ++ [p] }

def IcingaCheck.addMsg (c : IcingaCheck) (lvl : Nat) (t : String) : IcingaCheck :=
  { c with msgs := c.msgs ++ [Msg.mk lvl t] }

/-- Abstract model of `icingahelper.AlarmLevel(value, warn, crit)`:
an external threshold evaluator, a black box to this code. -/
abbrev AlarmFn := Int → String → String → Except String Nat

/-- An alarm evaluator that never fails, classifying via `f`.  The real
`AlarmLevel` fails only on malformed threshold expressions. -/
def alarmOf (f : Int → String → String → Nat) : AlarmFn :=
  fun v w c => Except.ok (f v w c)

/-- Abstract model of `snmphelper.Session`: `Walk` (called with
`bulk=true, sort=true`, both constant in this code) and `Get` oracles. -/
structure Session where
  walk : String → Except String SnmpOut
  get : List String → Except String SnmpOut

/-- Model of `fmt.Errorf("...: %v", err)` error wrapping. -/
def wrapErr {α : Type} (pre : String) : Except String α → Except String α
  | Except.ok a => Except.ok a
  | Except.error e => Except.error (pre ++ e)

/-- Numeric value of an ASCII digit. -/
def digVal (c : Char) : Option Nat :=
  if c.isDigit then some (c.toNat - 48) else none

/-- Value of a non-empty all-digit character sequence. -/
def digitsVal (cs : List Char) : Option Nat :=
  match cs with
  | [] => none
  | _ =>
    cs.foldl
      (fun acc c =>
        match acc, digVal c with
        | some a, some d => some (a * 10 + d)
        | _, _ => none)
      (some 0)

/-- Model of `strconv.Atoi`: optional sign followed by at least one
digit (integer overflow is not modelled; thresholds are small). -/
def Atoi (s : String) : Except String Int :=
  let bad : Except String Int :=
    Except.error ("strconv.Atoi: parsing \x22" ++ s ++ "\x22: invalid syntax")
  match s.data with
  | [] => bad
  | c :: cs =>
    if c = '-' then
      match digitsVal cs with
      | some n => Except.ok (-(n : Int))
      | none => bad
    else if c = '+' then
      match digitsVal cs with
      | some n => Except.ok (n : Int)
      | none => bad
    else
      match digitsVal (c :: cs) with
      | some n => Except.ok (n : Int)
      | none => bad

/-- Model of `strconv.Itoa` (via Go `int`). -/
def Itoa (n : Int) : String := toString n

/-- Model of `fmt.Sprintf("%.2f", float64(v)/100)`: exact two-decimal
rendering of v/100 (exact for every value a realistic counter takes). -/
def fmt2dec (v : Int) : String :=
  let a := v.natAbs
  let frac := a % 100
  let fs := if frac < 10 then "0" ++ toString frac else toString frac
  (if v < 0 then "-" else "") ++ toString (a / 100) ++ "." ++ fs

/-- Model of `int64(math.Round(float64(s) / float64(c)))` for a positive
count `c`: round half away from zero, computed exactly. -/
def mathRoundDiv (s : Int) (c : Nat) : Int :=
  if 0 ≤ s then ((2 * s.toNat + c) / (2 * c) : Nat)
  else -(((2 * s.natAbs + c) / (2 * c) : Nat) : Int)

/-- Model of `strings.ToUpper` (ASCII, which is all this code feeds it). -/
def goToUpper (s : String) : String := String.mk (s.data.map Char.toUpper)

/-- Whether the first character list is an initial segment of the second. -/
def startsWithL : List Char → List Char → Bool
  | [], _ => true
  | _ :: _, [] => false
  | c :: cs, d :: ds => c = d && startsWithL cs ds

/-- Model of `strings.Contains`: `pat` occurs somewhere inside `text`. -/
def hasSubstrL (text pat : List Char) : Bool :=
  text.tails.any (fun t => startsWithL pat t)

def goContains (s sub : String) : Bool := hasSubstrL s.data sub.data

/-- Model of `sort.Strings`: sort ascending. -/
def sortStrings (l : List String) : List String :=
  l.insertionSort (· ≤ ·)

/-! ### OID constants (from `cpu/cpu.go`) -/

def sysObjectID : String := ".1.3.6.1.2.1.1.2.0"
def hrProcessorLoad : String := ".1.3.6.1.2.1.25.3.3.1.2"
def ssCpuUser : String := ".1.3.6.1.4.1.2021.11.9.0"
def ssCpuSystem : String := ".1.3.6.1.4.1.2021.11.10.0"
def ssCpuRawIdle : String := ".1.3.6.1.4.1.2021.11.11.0"
def laLoadInt : String := ".1.3.6.1.4.1.2021.10.1.5"
def jnxOperatingDescr : String := ".1.3.6.1.4.1.2636.3.1.13.1.5"
def jnxOperatingCPU : String := ".1.3.6.1.4.1.2636.3.1.13.1.8"
def jnxOperating1MinLoadAvg : String := ".1.3.6.1.4.1.2636.3.1.13.1.20"
def jnxOperating5MinLoadAvg : String := ".1.3.6.1.4.1.2636.3.1.13.1.21"
def cpmCPUTotalPhysicalIndex : String := ".1.3.6.1.4.1.9.9.109.1.1.1.1.2"
def cpmCPUTotal1minRev : String := ".1.3.6.1.4.1.9.9.109.1.1.1.1.7"
def cpmCPUTotal5minRev : String := ".1.3.6.1.4.1.9.9.109.1.1.1.1.8"
def entPhysicalName : String := ".1.3.6.1.2.1.47.1.1.1.1.7"
def rcDeviceStsCpuUsagePercent : String := ".1.3.6.1.4.1.15004.4.2.2.6.0"

/-! ### The strategies, translated from `cpu/cpu.go` -/

/-- Model of the `cpuLoad` struct returned by `calcCPUData` (the Go code
returns a `map[string]int64` with exactly the keys `cpuCnt`, `load`). -/
structure CpuSummary where
  cpuCnt : Int
  load : Int
deriving DecidableEq

/-- Sum of the per-row `Integer` values, as `calcCPUData` computes it. -/
def loadSumOf (data : SnmpOut) : Int :=
  (data.map (fun d => d.2.Integer)).foldl (· + ·) 0

/-- Translation of `calcCPUData` (cpu.go:577): collect the per-row
integers, fail on an empty set, otherwise return the row count and the
rounded mean. -/
def calcCPUData (data : SnmpOut) : Except String CpuSummary :=
  let loads := data.map (fun d => d.2.Integer)
  if loads.length = 0 then Except.error "CPU count 0 or unknown"
  else
    let loadSum := loads.foldl (· + ·) 0
    Except.ok (CpuSummary.mk loads.length (mathRoundDiv loadSum loads.length))

/-- Translation of `(*Load).hostLoad` (cpu.go:115). -/
def hostLoad (sess : Session) (alarm : AlarmFn) (warn crit : String) :
    Except String IcingaCheck := do
  let res ← wrapErr "snmp error: " (sess.walk hrProcessorLoad)
  let cpuData ← wrapErr "cpu data error: " (calcCPUData res)
  let level ← wrapErr "alarm level error: " (alarm cpuData.load warn crit)
  let check := IcingaCheck.mk [] []
  let check := check.addPerf
    (PerfData.mk "'cpu usage'" (toString cpuData.load) "%" warn crit "0" "100")
  let check := check.addPerf
    (PerfData.mk "'cpu count'" (toString cpuData.cpuCnt) "" "" "" "" "")
  let check := check.addPerf (PerfData.mk "dummy" "0" "" "" "" "" "")
  pure (check.addMsg level
    (toString cpuData.cpuCnt ++ " CPUs; load " ++ toString cpuData.load ++ "%"))

/-- Translation of `(*Load).cpuLoad` (cpu.go:149), the `sysstats`
strategy. -/
def cpuLoad (sess : Session) (alarm : AlarmFn) (warn crit : String) :
    Except String IcingaCheck := do
  let res ← wrapErr "snmp error: " (sess.get [ssCpuUser, ssCpuSystem, ssCpuRawIdle])
  let used : Int := 100 - (res.getD ssCpuRawIdle).Integer
  let user : Int := (res.getD ssCpuUser).Integer
  let sys : Int := (res.getD ssCpuSystem).Integer
  let level ← wrapErr "alarm level error: " (alarm used warn crit)
  let check := IcingaCheck.mk [] []
  let check := check.addPerf
    (PerfData.mk "cpu_prct_used" (toString used) "%" warn crit "0" "100")
  let check := check.addPerf
    (PerfData.mk "cpu_prct_user" (toString user) "%" "" "" "0" "100")
  let check := check.addPerf
    (PerfData.mk "cpu_prct_system" (toString sys) "%" "" "" "0" "100")
  let check := check.addMsg level ("load " ++ toString used ++ "%")
  let check := check.addMsg level ("user " ++ toString user ++ "%")
  pure (check.addMsg level ("system " ++ toString sys ++ "%"))

/-- One window descriptor of the `loads` table that `sysLoad` builds:
short name, OID, perf label, derived warning and critical integers. -/
structure Window where
  p : String
  oid : String
  name : String
  w : Int
  c : Int

/-- Translation of `(*Load).sysLoad` (cpu.go:182), the `loadavg`
strategy. -/
def sysLoad (sess : Session) (alarm : AlarmFn) (warn crit : String) :
    Except String IcingaCheck := do
  let res ← wrapErr "snmp error: " (sess.walk hrProcessorLoad)
  let pCnt := res.length
  if pCnt = 0 then Except.error "get processor count failed: <nil>"
  else do
    let wPerc ← wrapErr "warning level must be integer: " (Atoi warn)
    let cPerc ← wrapErr "critical level must be integer: " (Atoi crit)
    let w1 := (pCnt : Int) * wPerc
    let c1 := (pCnt : Int) * cPerc
    let w5 := (pCnt : Int) * (wPerc - 5)
    let c5 := (pCnt : Int) * (cPerc - 5)
    let w15 := (pCnt : Int) * (wPerc - 10)
    let c15 := (pCnt : Int) * (cPerc - 10)
    let windows : List Window :=
      [Window.mk "l1" (laLoadInt ++ ".1") "load_1_min" w1 c1,
       Window.mk "l5" (laLoadInt ++ ".2") "load_5_min" w5 c5,
       Window.mk "l15" (laLoadInt ++ ".3") "load_15_min" w15 c15]
    let res2 ← wrapErr "snmp error: "
      (sess.get [laLoadInt ++ ".1", laLoadInt ++ ".2", laLoadInt ++ ".3"])
    let check := (IcingaCheck.mk [] []).addMsg 0 (toString pCnt ++ " CPUs")
    windows.foldlM
      (fun check win => do
        let v := (res2.getD win.oid).Integer
        let level ← wrapErr "alarm level error: "
          (alarm v (Itoa win.w) (Itoa win.c))
        let vReal := fmt2dec v
        pure ((check.addPerf
          (PerfData.mk win.name vReal "" (fmt2dec win.w) (fmt2dec win.c) "0" "")).addMsg
            level (win.p ++ " " ++ vReal)))
      check

/-- Translation of `(*Load).ruggedSwLoad` (cpu.go:479). -/
def ruggedSwLoad (sess : Session) (alarm : AlarmFn) (warn crit : String) :
    Except String IcingaCheck := do
  let res ← wrapErr "snmp error: " (sess.get [rcDeviceStsCpuUsagePercent])
  let u : Int := (res.getD rcDeviceStsCpuUsagePercent).Integer
  let level ← wrapErr "alarm level error: " (alarm u warn crit)
  let check := IcingaCheck.mk [] []
  let check := check.addPerf
    (PerfData.mk "cpu_usage" (toString u) "%" warn crit "0" "100")
  let check := check.addPerf (PerfData.mk "dummy1" "0" "" "" "" "" "")
  let check := check.addPerf (PerfData.mk "dummy2" "0" "" "" "" "" "")
  pure (check.addMsg level ("usage " ++ toString u ++ "%"))

/-- Translation of `(*Load).moxaSwLoad` (cpu.go:506). -/
def moxaSwLoad (sess : Session) (alarm : AlarmFn) (warn crit : String) :
    Except String IcingaCheck := do
  let res ← wrapErr "snmp error: " (sess.get [sysObjectID])
  let soi := (res.getD sysObjectID).ObjectIdentifier
  let ol5 := soi ++ ".1.53.0"
  let ol30 := soi ++ ".1.54.0"
  let ol300 := soi ++ ".1.55.0"
  let res2 ← wrapErr "snmp error: " (sess.get [ol5, ol30, ol300])
  let l5 : Int := (res2.getD ol5).Integer
  let l30 : Int := (res2.getD ol30).Integer
  let l300 : Int := (res2.getD ol300).Integer
  let wInt ← wrapErr "warning level must be integer: " (Atoi warn)
  let cInt ← wrapErr "critical level must be integer: " (Atoi crit)
  let w30s := Itoa (wInt - 5)
  let c30s := Itoa (cInt - 5)
  let w300s := Itoa (wInt - 10)
  let c300s := Itoa (cInt - 10)
  let level ← wrapErr "alarm level error: " (alarm l5 warn crit)
  let check := IcingaCheck.mk [] []
  let check := check.addPerf
    (PerfData.mk "usage_5s" (toString l5) "%" warn crit "0" "100")
  let check := check.addMsg level ("usage 5s " ++ toString l5 ++ "%")
  let level2 ← wrapErr "alarm level error: " (alarm l30 w30s c30s)
  let check := check.addPerf
    (PerfData.mk "usage_30s" (toString l30) "%" w30s c30s "0" "100")
  let check := check.addMsg level2 ("30s " ++ toString l30 ++ "%")
  let level3 ← wrapErr "alarm level error: " (alarm l300 w300s c300s)
  let check := check.addPerf
    (PerfData.mk "usage_300s" (toString l300) "%" w300s c300s "0" "100")
  pure (check.addMsg level3 ("300s " ++ toString l300 ++ "%"))

/-! ### Juniper strategy (`jnxLoad`, cpu.go:270) -/

/-- Filter the walked description column to rows that contain
"Routing Engine" case-insensitively, building the `re` map keyed by the
table index (cpu.go:281-286). -/
def jnxREs (res : SnmpOut) : List (String × String) :=
  res.foldl
    (fun m p =>
      if goContains (goToUpper p.2.OctetString) (goToUpper "Routing Engine")
      then upsert m p.1 p.2.OctetString else m)
    []

/-- The three per-engine OIDs fetched in one `Get` (cpu.go:291). -/
def jnxOids (i : String) : List String :=
  [jnxOperatingCPU ++ "." ++ i, jnxOperating1MinLoadAvg ++ "." ++ i,
   jnxOperating5MinLoadAvg ++ "." ++ i]

/-- The per-engine metrics map `d` (cpu.go:301-305): built with all three
keys unconditionally, reading the Go zero value for absent OIDs. -/
def jnxDatOf (r : SnmpOut) (i : String) : List (String × Nat) :=
  [("util", (r.getD (jnxOperatingCPU ++ "." ++ i)).Gauge32),
   ("load1", (r.getD (jnxOperating1MinLoadAvg ++ "." ++ i)).Gauge32),
   ("load5", (r.getD (jnxOperating5MinLoadAvg ++ "." ++ i)).Gauge32)]

/-- The per-name emission of one Juniper engine block (cpu.go:318-339). -/
def jnxBlockM (alarm : AlarmFn) (warn crit : String)
    (loads : List (String × List (String × Nat))) (check : IcingaCheck)
    (n : String) : Except String IcingaCheck := do
  let d := (alookup loads n).getD []
  let check := check.addMsg 0 n
  let check ←
    match alookup d "util" with
    | some v => do
        let level ← wrapErr "alarm level error: " (alarm (Int.ofNat v) warn crit)
        pure ((check.addPerf
          (PerfData.mk ("'" ++ n ++ " util'") (toString v) "%" warn crit "0" "")).addMsg
            level ("util " ++ toString v ++ "%"))
    | none => pure (check.addMsg 3 "util Na")
  (["1", "5"]).foldlM
    (fun check t =>
      match alookup d ("load" ++ t) with
      | some v =>
          pure ((check.addPerf
            (PerfData.mk ("'" ++ n ++ " load" ++ t ++ "'") (toString v) "%" "" "" "0" "")).addMsg
              0 ("load" ++ t ++ " " ++ toString v ++ "%"))
      | none => pure (check.addMsg 3 ("load" ++ t ++ " Na")))
    check

/-- Translation of `(*Load).jnxLoad` (cpu.go:270). -/
def jnxLoad (sess : Session) (alarm : AlarmFn) (warn crit : String) :
    Except String IcingaCheck := do
  let res ← wrapErr "snmp error: " (sess.walk jnxOperatingDescr)
  let re := jnxREs res
  let loads ← re.foldlM
    (fun loads p => do
      let r ← wrapErr "snmp error: " (sess.get (jnxOids p.1))
      pure (upsert loads p.2 (jnxDatOf r p.1)))
    []
  let cn := sortStrings (akeys loads)
  cn.foldlM (jnxBlockM alarm warn crit loads) (IcingaCheck.mk [] [])

/-! ### Cisco strategy (`ciscoLoad`, cpu.go:346) -/

/-- Rows of the physical-index walk whose value is literally 0 are named
"CPU0" directly (cpu.go:359-362). -/
def ciscoNames0 (res : SnmpOut) : List (String × String) :=
  res.foldl
    (fun m p => if p.2.Integer = 0 then upsert m p.1 "CPU0" else m) []

/-- All other rows go to the `cpuIDs` map for entity-name resolution
(cpu.go:359-365). -/
def ciscoCpuIDs (res : SnmpOut) : List (String × Int) :=
  res.foldl
    (fun m p => if p.2.Integer = 0 then m else upsert m p.1 p.2.Integer) []

/-- The entity-name OIDs requested for the second `Get` (cpu.go:368-373):
built solely from `cpuIDs` values. -/
def ciscoEO (cpuIDs : List (String × Int)) : List String :=
  cpuIDs.map (fun p => entPhysicalName ++ "." ++ toString p.2)

/-- Resolution of entity names (cpu.go:384-389): a row whose lookup
returns a non-empty string is added to `names`; an empty lookup leaves
the row unnamed. -/
def ciscoResolve (names : List (String × String)) (cpuIDs : List (String × Int))
    (entRes : SnmpOut) : List (String × String) :=
  cpuIDs.foldl
    (fun ns p =>
      let oid := entPhysicalName ++ "." ++ toString p.2
      if (entRes.getD oid).OctetString ≠ "" then
        upsert ns p.1 (entRes.getD oid).OctetString
      else ns)
    names

/-- The load OIDs requested for every named CPU (cpu.go:392-399). -/
def ciscoLO (names : List (String × String)) : List String :=
  names.flatMap
    (fun p => [cpmCPUTotal1minRev ++ "." ++ p.1, cpmCPUTotal5minRev ++ "." ++ p.1])

/-- The per-CPU metrics map `d` (cpu.go:415-421): keys `l1m`, `l5m` are
set only when the corresponding OID is present in the result. -/
def ciscoDatOf (loadRes : SnmpOut) (idx : String) : List (String × Nat) :=
  (match alookup loadRes (cpmCPUTotal1minRev ++ "." ++ idx) with
   | some v => [("l1m", v.Gauge32)]
   | none => []) ++
  (match alookup loadRes (cpmCPUTotal5minRev ++ "." ++ idx) with
   | some v => [("l5m", v.Gauge32)]
   | none => [])

/-- The `loads` map keyed by resolved CPU name (cpu.go:410-423). -/
def ciscoLoads (names : List (String × String)) (loadRes : SnmpOut) :
    List (String × List (String × Nat)) :=
  names.foldl (fun ls p => upsert ls p.2 (ciscoDatOf loadRes p.1)) []

/-- The per-name emission of one Cisco CPU block (cpu.go:447-473). -/
def ciscoBlockM (alarm : AlarmFn) (warn crit w5m c5m : String)
    (loads : List (String × List (String × Nat))) (check : IcingaCheck)
    (n : String) : Except String IcingaCheck := do
  let d := (alookup loads n).getD []
  let check := check.addMsg 0 n
  let check ←
    match alookup d "l1m" with
    | some v => do
        let level ← wrapErr "alarm level error: " (alarm (Int.ofNat v) warn crit)
        pure ((check.addPerf
          (PerfData.mk ("'" ++ n ++ " 1min'") (toString v) "%" warn crit "0" "")).addMsg
            level ("1m " ++ toString v ++ "%"))
    | none => pure (check.addMsg 3 "1m Na")
  let check ←
    match alookup d "l5m" with
    | some v => do
        let level ← wrapErr "alarm level error: " (alarm (Int.ofNat v) w5m c5m)
        pure ((check.addPerf
          (PerfData.mk ("'" ++ n ++ " 5min'") (toString v) "%" w5m c5m "0" "")).addMsg
            level ("5m " ++ toString v ++ "%"))
    | none => pure (check.addMsg 3 "5m Na")
  pure (check.addPerf (PerfData.mk "dummy" "0" "" "" "" "" ""))

/-- Translation of `(*Load).ciscoLoad` (cpu.go:346). -/
def ciscoLoad (sess : Session) (alarm : AlarmFn) (warn crit : String) :
    Except String IcingaCheck := do
  let res ← wrapErr "snmp error: " (sess.walk cpmCPUTotalPhysicalIndex)
  let names0 := ciscoNames0 res
  let cpuIDs := ciscoCpuIDs res
  let entRes ← wrapErr "snmp error: " (sess.get (ciscoEO cpuIDs))
  let names := ciscoResolve names0 cpuIDs entRes
  let loadRes ← wrapErr "snmp error: " (sess.get (ciscoLO names))
  let loads := ciscoLoads names loadRes
  let wInt ← wrapErr "warning level must be integer: " (Atoi warn)
  let cInt ← wrapErr "critical level must be integer: " (Atoi crit)
  let w5m := Itoa (wInt - 5)
  let c5m := Itoa (cInt - 5)
  let cn := sortStrings (akeys loads)
  cn.foldlM (ciscoBlockM alarm warn crit w5m c5m loads) (IcingaCheck.mk [] [])

/-- Translation of `(*Load).Get` (cpu.go:70): the check-type dispatcher. -/
def LoadGet (sess : Session) (alarm : AlarmFn) (warn crit ctype : String) :
    Except String IcingaCheck :=
  if ctype = "host" then hostLoad sess alarm warn crit
  else if ctype = "sysstats" then cpuLoad sess alarm warn crit
  else if ctype = "loadavg" then sysLoad sess alarm warn crit
  else if ctype = "jnx" then jnxLoad sess alarm warn crit
  else if ctype = "cisco" then ciscoLoad sess alarm warn crit
  else if ctype = "rcsw" then ruggedSwLoad sess alarm warn crit
  else if ctype = "moxasw" then moxaSwLoad sess alarm warn crit
  else Except.error "no such check type"

/-! ### Infrastructure lemmas -/

@[simp] theorem wrapErr_ok {α : Type} (pre : String) (a : α) :
    wrapErr pre (Except.ok a) = Except.ok a := rfl

@[simp] theorem wrapErr_error {α : Type} (pre : String) (e : String) :
    (wrapErr pre (Except.error e) : Except String α) = Except.error (pre ++ e) := rfl

@[simp] theorem exc_ok_bind {α β : Type} (a : α) (f : α → Except String β) :
    (Except.ok a >>= f) = f a := rfl

@[simp] theorem exc_error_bind {α β : Type} (e : String) (f : α → Except String β) :
    (Except.error e >>= f) = Except.error e := rfl

@[simp] theorem exc_pure {α : Type} (a : α) :
    (pure a : Except String α) = Except.ok a := rfl

theorem foldlM_ok_mem {σ β : Type} (stepM : σ → β → Except String σ)
    (g : σ → β → σ) :
    ∀ (l : List β) (c : σ), (∀ c b, b ∈ l → stepM c b = Except.ok (g c b)) →
      l.foldlM stepM c = Except.ok (l.foldl g c)
  | [], _, _ => rfl
  | b :: l, c, h => by
    simp only [List.foldlM, List.foldl, h c b (List.mem_cons_self b l), exc_ok_bind]
    exact foldlM_ok_mem stepM g l (g c b)
      (fun c' b' hb' => h c' b' (List.mem_cons_of_mem b hb'))

theorem foldl_emit {β : Type} (P : β → List PerfData) (M : β → List Msg) :
    ∀ (l : List β) (c : IcingaCheck),
      l.foldl (fun c b => IcingaCheck.mk (c.perfData ++ P b) (c.msgs ++ M b)) c
        = IcingaCheck.mk (c.perfData ++ l.flatMap P) (c.msgs ++ l.flatMap M)
  | [], c => by simp
  | b :: l, c => by
    simp only [List.foldl, List.flatMap_cons, foldl_emit P M l, List.append_assoc]

theorem foldlM_emit {β : Type} (stepM : IcingaCheck → β → Except String IcingaCheck)
    (P : β → List PerfData) (M : β → List Msg)
    (h : ∀ c b, stepM c b =
      Except.ok (IcingaCheck.mk (c.perfData ++ P b) (c.msgs ++ M b)))
    (l : List β) (c : IcingaCheck) :
    l.foldlM stepM c =
      Except.ok (IcingaCheck.mk (c.perfData ++ l.flatMap P) (c.msgs ++ l.flatMap M)) := by
  rw [foldlM_ok_mem stepM _ l c (fun c' b' _ => h c' b'), foldl_emit]

theorem akeys_nil {α : Type} : akeys ([] : List (String × α)) = [] := rfl

theorem akeys_append {α : Type} (m m' : List (String × α)) :
    akeys (m ++ m') = akeys m ++ akeys m' := List.map_append _ m m'

theorem akeys_cons {α : Type} (p : String × α) (m : List (String × α)) :
    akeys (p :: m) = p.1 :: akeys m := rfl

theorem akeys_upsert_of_mem {α : Type} {m : List (String × α)} {k : String}
    (v : α) (h : k ∈ akeys m) : akeys (upsert m k v) = akeys m := by
  unfold upsert
  rw [if_pos h]
  unfold akeys
  rw [List.map_map]
  apply List.map_congr_left
  intro p _
  by_cases hp : p.1 = k
  · simp [hp]
  · simp [hp]

theorem upsert_of_not_mem {α : Type} {m : List (String × α)} {k : String}
    (v : α) (h : ¬ k ∈ akeys m) : upsert m k v = m ++ [(k, v)] := by
  unfold upsert
  rw [if_neg h]

theorem nodup_akeys_upsert {α : Type} {m : List (String × α)} {k : String}
    (v : α) (h : (akeys m).Nodup) : (akeys (upsert m k v)).Nodup := by
  by_cases hk : k ∈ akeys m
  · rw [akeys_upsert_of_mem v hk]; exact h
  · rw [upsert_of_not_mem v hk, akeys_append]
    refine List.Nodup.append h (List.nodup_singleton k) ?_
    intro a ha hb
    have : a = k := by simpa [akeys] using hb
    exact hk (this ▸ ha)

theorem toFinset_akeys_upsert {α : Type} (m : List (String × α)) (k : String)
    (v : α) : (akeys (upsert m k v)).toFinset = insert k (akeys m).toFinset := by
  by_cases hk : k ∈ akeys m
  · rw [akeys_upsert_of_mem v hk]
    exact (Finset.insert_eq_self.mpr (List.mem_toFinset.mpr hk)).symm
  · rw [upsert_of_not_mem v hk, akeys_append, List.toFinset_append]
    have : akeys [(k, v)] = [k] := rfl
    rw [this, List.toFinset_cons, List.toFinset_nil, insert_emptyc_eq,
      Finset.union_comm, ← Finset.insert_eq]

/-- Go map key accumulation order: a fresh key is appended, an existing
key keeps its place. -/
def addKey (ks : List String) (k : String) : List String :=
  if k ∈ ks then ks else ks ++ [k]

theorem akeys_foldl_upsert {α β : Type} (f : β → String) (g : β → α) :
    ∀ (l : List β) (m : List (String × α)),
      akeys (l.foldl (fun acc b => upsert acc (f b) (g b)) m)
        = (l.map f).foldl addKey (akeys m)
  | [], _ => rfl
  | b :: l, m => by
    simp only [List.foldl, List.map_cons]
    rw [akeys_foldl_upsert f g l]
    unfold addKey
    by_cases hk : f b ∈ akeys m
    · rw [akeys_upsert_of_mem (g b) hk, if_pos hk]
    · rw [upsert_of_not_mem (g b) hk, akeys_append, if_neg hk]
      rfl

theorem nodup_foldl_addKey :
    ∀ (l : List String) (ks : List String), ks.Nodup → (l.foldl addKey ks).Nodup
  | [], _, h => h
  | k :: l, ks, h => by
    simp only [List.foldl]
    apply nodup_foldl_addKey l
    unfold addKey
    by_cases hk : k ∈ ks
    · rw [if_pos hk]; exact h
    · rw [if_neg hk]
      refine List.Nodup.append h (List.nodup_singleton k) ?_
      intro a ha hb
      have : a = k := by simpa using hb
      exact hk (this ▸ ha)

theorem toFinset_foldl_addKey :
    ∀ (l : List String) (ks : List String),
      (l.foldl addKey ks).toFinset = ks.toFinset ∪ l.toFinset
  | [], ks => by simp
  | k :: l, ks => by
    simp only [List.foldl]
    rw [toFinset_foldl_addKey l]
    have hk : (addKey ks k).toFinset = insert k ks.toFinset := by
      unfold addKey
      by_cases h : k ∈ ks
      · rw [if_pos h]
        exact (Finset.insert_eq_self.mpr (List.mem_toFinset.mpr h)).symm
      · rw [if_neg h, List.toFinset_append, List.toFinset_cons, List.toFinset_nil,
          insert_emptyc_eq, Finset.union_comm, ← Finset.insert_eq]
    rw [hk, List.toFinset_cons, Finset.insert_union, Finset.union_insert]

theorem sortStrings_sorted_le (l : List String) :
    List.Sorted (· ≤ ·) (sortStrings l) := List.sorted_insertionSort _ l

theorem sortStrings_perm (l : List String) : List.Perm (sortStrings l) l :=
  List.perm_insertionSort _ l

theorem sortStrings_sorted_lt {l : List String} (h : l.Nodup) :
    List.Sorted (· < ·) (sortStrings l) :=
  List.Sorted.lt_of_le (sortStrings_sorted_le l)
    ((sortStrings_perm l).nodup_iff.mpr h)

theorem sortStrings_eq_of_perm {l₁ l₂ : List String} (h : List.Perm l₁ l₂) :
    sortStrings l₁ = sortStrings l₂ :=
  List.eq_of_perm_of_sorted
    (((sortStrings_perm l₁).trans h).trans (sortStrings_perm l₂).symm)
    (sortStrings_sorted_le l₁) (sortStrings_sorted_le l₂)

theorem sortStrings_canon {l₁ l₂ : List String} (h₁ : l₁.Nodup) (h₂ : l₂.Nodup)
    (hf : l₁.toFinset = l₂.toFinset) : sortStrings l₁ = sortStrings l₂ :=
  sortStrings_eq_of_perm (List.perm_of_nodup_nodup_toFinset_eq h₁ h₂ hf)

theorem alookup_append {α : Type} (m m' : List (String × α)) (k : String) :
    alookup (m ++ m') k = if k ∈ akeys m then alookup m k else alookup m' k := by
  induction m with
  | nil => simp [alookup, akeys]
  | cons p m ih =>
    rw [List.cons_append]
    simp only [alookup, akeys_cons, List.mem_cons]
    by_cases hp : p.1 = k
    · rw [if_pos hp, if_pos (Or.inl hp.symm), if_pos hp]
    · rw [if_neg hp, ih]
      by_cases hk : k ∈ akeys m
      · rw [if_pos hk, if_pos (Or.inr hk), if_neg hp]
      · rw [if_neg hk, if_neg (fun h => h.elim (fun e => hp e.symm) hk)]

theorem alookup_of_not_mem {α : Type} {m : List (String × α)} {k : String}
    (h : ¬ k ∈ akeys m) : alookup m k = none := by
  induction m with
  | nil => rfl
  | cons p m ih =>
    rw [akeys_cons, List.mem_cons] at h
    push_neg at h
    show (if p.1 = k then some p.2 else alookup m k) = none
    rw [if_neg (fun e => h.1 e.symm)]
    exact ih h.2

theorem alookup_mem {α : Type} :
    ∀ {m : List (String × α)} {k : String} {v : α},
      alookup m k = some v → (k, v) ∈ m
  | [], _, _, h => by simp [alookup] at h
  | p :: m, k, v, h => by
    by_cases hp : p.1 = k
    · simp only [alookup, if_pos hp] at h
      injection h with h2
      subst h2
      subst hp
      exact List.mem_cons_self p m
    · simp only [alookup, if_neg hp] at h
      exact List.mem_cons_of_mem p (alookup_mem h)

theorem alookup_of_mem_nodup {α : Type} :
    ∀ {m : List (String × α)} {k : String} {v : α},
      (k, v) ∈ m → (akeys m).Nodup → alookup m k = some v
  | [], _, _, h, _ => absurd h (List.not_mem_nil _)
  | p :: m, k, v, h, hn => by
    rw [akeys_cons] at hn
    rcases List.mem_cons.mp h with h1 | h1
    · rw [← h1]
      show (if k = k then some v else alookup m k) = some v
      rw [if_pos rfl]
    · have hk : k ∈ akeys m := by
        simpa [akeys] using List.mem_map_of_mem Prod.fst h1
      have hp : p.1 ≠ k := fun e => (List.nodup_cons.mp hn).1 (e ▸ hk)
      show (if p.1 = k then some p.2 else alookup m k) = some v
      rw [if_neg hp]
      exact alookup_of_mem_nodup h1 (List.nodup_cons.mp hn).2

theorem alookup_upsert_self {α : Type} :
    ∀ (m : List (String × α)) (k : String) (v : α),
      alookup (upsert m k v) k = some v := by
  intro m k v
  by_cases hk : k ∈ akeys m
  · unfold upsert
    rw [if_pos hk]
    induction m with
    | nil => simp [akeys] at hk
    | cons p m ih =>
      by_cases hp : p.1 = k
      · simp only [List.map_cons, if_pos hp]
        show (if k = k then some v else _) = some v
        rw [if_pos rfl]
      · simp only [List.map_cons, if_neg hp]
        show (if p.1 = k then some p.2 else _) = some v
        rw [if_neg hp]
        exact ih (by
          rw [akeys_cons, List.mem_cons] at hk
          exact hk.resolve_left (fun e => hp e.symm))
  · rw [upsert_of_not_mem v hk, alookup_append, if_neg hk]
    show (if k = k then some v else none) = some v
    rw [if_pos rfl]

theorem alookup_map_replace {α : Type} (k k' : String) (v : α) (h : k' ≠ k) :
    ∀ (m : List (String × α)),
      alookup (m.map (fun p => if p.1 = k then (k, v) else p)) k' = alookup m k'
  | [] => rfl
  | p :: m => by
    by_cases hp : p.1 = k
    · simp only [List.map_cons, if_pos hp]
      show (if k = k' then some v else _) = (if p.1 = k' then some p.2 else _)
      rw [if_neg (fun e => h e.symm), if_neg (fun e => h (hp ▸ e).symm)]
      exact alookup_map_replace k k' v h m
    · simp only [List.map_cons, if_neg hp]
      show (if p.1 = k' then some p.2 else _) = (if p.1 = k' then some p.2 else _)
      by_cases hq : p.1 = k'
      · rw [if_pos hq, if_pos hq]
      · rw [if_neg hq, if_neg hq]
        exact alookup_map_replace k k' v h m

theorem alookup_upsert_ne {α : Type} (m : List (String × α)) (k k' : String)
    (v : α) (h : k' ≠ k) : alookup (upsert m k v) k' = alookup m k' := by
  by_cases hk : k ∈ akeys m
  · unfold upsert
    rw [if_pos hk]
    exact alookup_map_replace k k' v h m
  · rw [upsert_of_not_mem v hk, alookup_append]
    by_cases hk' : k' ∈ akeys m
    · rw [if_pos hk']
    · rw [if_neg hk', alookup_of_not_mem hk']
      show (if k = k' then some v else none) = none
      rw [if_neg (fun e => h e.symm)]

theorem mem_upsert {α : Type} {m : List (String × α)} {k : String} {v : α}
    {x : String × α} (h : x ∈ upsert m k v) : x ∈ m ∨ x = (k, v) := by
  unfold upsert at h
  by_cases hk : k ∈ akeys m
  · rw [if_pos hk] at h
    rcases List.mem_map.mp h with ⟨p, hp, he⟩
    by_cases hc : p.1 = k
    · rw [if_pos hc] at he
      exact Or.inr he.symm
    · rw [if_neg hc] at he
      exact Or.inl (he ▸ hp)
  · rw [if_neg hk] at h
    rcases List.mem_append.mp h with h1 | h1
    · exact Or.inl h1
    · exact Or.inr (by simpa using h1)

theorem mem_foldl_upsert {α β : Type} (f : β → String) (g : β → α) :
    ∀ (l : List β) (m : List (String × α)) (x : String × α),
      x ∈ l.foldl (fun acc b => upsert acc (f b) (g b)) m →
        x ∈ m ∨ ∃ b ∈ l, x = (f b, g b)
  | [], _, _, h => Or.inl h
  | b :: l, m, x, h => by
    simp only [List.foldl] at h
    rcases mem_foldl_upsert f g l (upsert m (f b) (g b)) x h with h1 | h1
    · rcases mem_upsert h1 with h2 | h2
      · exact Or.inl h2
      · exact Or.inr ⟨b, List.mem_cons_self b l, h2⟩
    · rcases h1 with ⟨b', hb', he⟩
      exact Or.inr ⟨b', List.mem_cons_of_mem b hb', he⟩

/-- A consistent device: `Get` returns one row per requested OID, valued
by a fixed per-OID assignment. -/
def mkDev (dev : String → SnmpValue) (oids : List String) : SnmpOut :=
  oids.map (fun o => (o, dev o))

theorem alookup_mkDev {dev : String → SnmpValue} :
    ∀ {oids : List String} {o : String}, o ∈ oids →
      alookup (mkDev dev oids) o = some (dev o)
  | [], _, h => absurd h (List.not_mem_nil _)
  | o' :: oids, o, h => by
    by_cases he : o' = o
    · show (if o' = o then some (dev o') else _) = some (dev o)
      rw [if_pos he, he]
    · show (if o' = o then some (dev o') else _) = some (dev o)
      rw [if_neg he]
      exact alookup_mkDev ((List.mem_cons.mp h).resolve_left (fun e => he e.symm))

theorem getD_mkDev {dev : String → SnmpValue} {oids : List String} {o : String}
    (h : o ∈ oids) : SnmpOut.getD (mkDev dev oids) o = dev o := by
  unfold SnmpOut.getD
  rw [alookup_mkDev h]
  rfl

theorem inj_of_nodup_akeys {α : Type} {m : List (String × α)}
    (h : (akeys m).Nodup) :
    ∀ p ∈ m, ∀ q ∈ m, p.1 = q.1 → p = q := by
  intro p hp q hq he
  exact List.inj_on_of_nodup_map h hp hq he

/-- Folding a conditional Go-map insertion over rows with pairwise fresh
keys is a plain filter-and-append. -/
theorem foldl_upsert_cond {α β : Type} (f : β → String) (g : β → α)
    (c : β → Prop) [DecidablePred c] :
    ∀ (l : List β) (m : List (String × α)),
      (∀ b ∈ l, c b → f b ∉ akeys m) →
      ((l.filter (fun b => decide (c b))).map f).Nodup →
      l.foldl (fun acc b => if c b then upsert acc (f b) (g b) else acc) m
        = m ++ (l.filter (fun b => decide (c b))).map (fun b => (f b, g b))
  | [], m, _, _ => by simp
  | b :: l, m, hfresh, hnd => by
    simp only [List.foldl]
    by_cases hc : c b
    · rw [if_pos hc,
        upsert_of_not_mem (g b) (hfresh b (List.mem_cons_self b l) hc)]
      rw [List.filter_cons_of_pos (by simpa using hc)] at hnd ⊢
      rw [List.map_cons] at hnd
      have hfresh' : ∀ b' ∈ l, c b' → f b' ∉ akeys (m ++ [(f b, g b)]) := by
        intro b' hb' hc' hmem
        rw [akeys_append] at hmem
        rcases List.mem_append.mp hmem with h1 | h1
        · exact hfresh b' (List.mem_cons_of_mem b hb') hc' h1
        · have he : f b' = f b := by simpa [akeys] using h1
          have : f b ∈ (l.filter (fun x => decide (c x))).map f :=
            he ▸ List.mem_map_of_mem f
              (List.mem_filter.mpr ⟨hb', by simpa using hc'⟩)
          exact (List.nodup_cons.mp hnd).1 this
      rw [foldl_upsert_cond f g c l (m ++ [(f b, g b)]) hfresh'
        (List.nodup_cons.mp hnd).2]
      simp [List.append_assoc]
    · rw [if_neg hc, List.filter_cons_of_neg (by simpa using hc)] at *
      exact foldl_upsert_cond f g c l m
        (fun b' hb' => hfresh b' (List.mem_cons_of_mem b hb')) hnd

/-- Variant of `foldl_upsert_cond` for steps written
`if c b then acc else upsert ...` (skip on the condition). -/
theorem foldl_upsert_condneg {α β : Type} (f : β → String) (g : β → α)
    (c : β → Prop) [DecidablePred c] (l : List β) (m : List (String × α))
    (hfresh : ∀ b ∈ l, ¬ c b → f b ∉ akeys m)
    (hnd : ((l.filter (fun b => !(decide (c b)))).map f).Nodup) :
    l.foldl (fun acc b => if c b then acc else upsert acc (f b) (g b)) m
      = m ++ (l.filter (fun b => !(decide (c b)))).map (fun b => (f b, g b)) := by
  have hstep : (fun (acc : List (String × α)) b =>
      if c b then acc else upsert acc (f b) (g b))
      = (fun acc b => if ¬ c b then upsert acc (f b) (g b) else acc) := by
    funext acc b
    rw [ite_not]
  rw [hstep]
  have hfilter : (fun b => !(decide (c b))) = (fun b => decide (¬ c b)) := by
    funext b
    by_cases hb : c b <;> simp [hb]
  rw [hfilter] at hnd ⊢
  exact foldl_upsert_cond f g (fun b => ¬ c b) l m hfresh hnd

/-- The exact model of `math.Round(float64(s)/float64(n))` agrees with
mathematical rounding of the rational s/n for non-negative sums. -/
theorem mathRoundDiv_eq_round (s : Int) (n : Nat) (hs : 0 ≤ s) (hn : 0 < n) :
    mathRoundDiv s n = round ((s : ℚ) / (n : ℚ)) := by
  unfold mathRoundDiv
  rw [if_pos hs, round_eq]
  have hsa : (s : ℚ) = (s.toNat : ℚ) := by
    exact_mod_cast (congrArg (fun z : ℤ => (z : ℚ)) (Int.toNat_of_nonneg hs)).symm
  set a := s.toNat with ha
  set m := 2 * a + n with hm
  set k := 2 * n with hkdef
  have hk : 0 < k := by omega
  have hkq : (0 : ℚ) < (k : ℚ) := by exact_mod_cast hk
  have key : (s : ℚ) / (n : ℚ) + 1 / 2 = (m : ℚ) / (k : ℚ) := by
    rw [hsa, hm, hkdef]
    have hn' : ((n : ℚ)) ≠ 0 := Nat.cast_ne_zero.mpr hn.ne'
    push_cast
    field_simp
    ring
  rw [key, eq_comm]
  rw [Int.floor_eq_iff]
  constructor
  · rw [le_div_iff hkq]
    exact_mod_cast Nat.div_mul_le_self m k
  · rw [div_lt_iff hkq]
    have hnat : m < (m / k + 1) * k := by
      calc m = k * (m / k) + m % k := (Nat.div_add_mod m k).symm
        _ < k * (m / k) + k := Nat.add_lt_add_left (Nat.mod_lt m hk) _
        _ = (m / k + 1) * k := by ring
    exact_mod_cast hnat

/-! ### Pure output shapes of the Juniper and Cisco strategies -/

/-- The `loads` map `jnxLoad` builds when every per-engine `Get`
answers, as a pure function of the per-engine results. -/
def jnxLoadsOf (getRes : String → SnmpOut) (re : List (String × String)) :
    List (String × List (String × Nat)) :=
  re.foldl (fun loads p => upsert loads p.2 (jnxDatOf (getRes p.1) p.1)) []

/-- Performance records contributed by the util sub-metric of one
engine: one record when present, none otherwise. -/
def jnxUtilPerf (warn crit : String) (d : List (String × Nat)) (n : String) :
    List PerfData :=
  match alookup d "util" with
  | some v => [PerfData.mk ("'" ++ n ++ " util'") (toString v) "%" warn crit "0" ""]
  | none => []

/-- Status lines contributed by the util sub-metric of one engine. -/
def jnxUtilMsgs (f : Int → String → String → Nat) (warn crit : String)
    (d : List (String × Nat)) : List Msg :=
  match alookup d "util" with
  | some v => [Msg.mk (f (Int.ofNat v) warn crit) ("util " ++ toString v ++ "%")]
  | none => [Msg.mk 3 "util Na"]

/-- Performance records contributed by the load-`t` sub-metric. -/
def jnxLoadTPerf (d : List (String × Nat)) (n t : String) : List PerfData :=
  match alookup d ("load" ++ t) with
  | some v =>
    [PerfData.mk ("'" ++ n ++ " load" ++ t ++ "'") (toString v) "%" "" "" "0" ""]
  | none => []

/-- Status lines contributed by the load-`t` sub-metric. -/
def jnxLoadTMsgs (d : List (String × Nat)) (t : String) : List Msg :=
  match alookup d ("load" ++ t) with
  | some v => [Msg.mk 0 ("load" ++ t ++ " " ++ toString v ++ "%")]
  | none => [Msg.mk 3 ("load" ++ t ++ " Na")]

/-- All performance records of one Juniper engine block. -/
def jnxPerfFor (warn crit : String)
    (loads : List (String × List (String × Nat))) (n : String) : List PerfData :=
  let d := (alookup loads n).getD []
  jnxUtilPerf warn crit d n ++ (jnxLoadTPerf d n "1" ++ jnxLoadTPerf d n "5")

/-- All status lines of one Juniper engine block. -/
def jnxMsgsFor (f : Int → String → String → Nat) (warn crit : String)
    (loads : List (String × List (String × Nat))) (n : String) : List Msg :=
  let d := (alookup loads n).getD []
  Msg.mk 0 n :: (jnxUtilMsgs f warn crit d ++ (jnxLoadTMsgs d "1" ++ jnxLoadTMsgs d "5"))

theorem jnxBlockM_emit (f : Int → String → String → Nat) (warn crit : String)
    (loads : List (String × List (String × Nat))) (c : IcingaCheck) (n : String) :
    jnxBlockM (alarmOf f) warn crit loads c n =
      Except.ok (IcingaCheck.mk (c.perfData ++ jnxPerfFor warn crit loads n)
        (c.msgs ++ jnxMsgsFor f warn crit loads n)) := by
  unfold jnxBlockM jnxPerfFor jnxMsgsFor
  set d := (alookup loads n).getD [] with hd
  cases hu : alookup d "util" <;>
    cases h1 : alookup d "load1" <;>
      cases h5 : alookup d "load5" <;>
        simp [jnxUtilPerf, jnxUtilMsgs, jnxLoadTPerf, jnxLoadTMsgs, hu, h1, h5,
          alarmOf, IcingaCheck.addPerf, IcingaCheck.addMsg, List.foldlM]

/-- Evaluation of the whole Juniper strategy when the walk and every
per-engine `Get` succeed: the emitted output is the concatenation of the
per-engine blocks in sorted name order. -/
theorem jnxLoad_run (sess : Session) (f : Int → String → String → Nat)
    (warn crit : String) (wres : SnmpOut) (getRes : String → SnmpOut)
    (hw : sess.walk jnxOperatingDescr = Except.ok wres)
    (hg : ∀ p ∈ jnxREs wres, sess.get (jnxOids p.1) = Except.ok (getRes p.1)) :
    jnxLoad sess (alarmOf f) warn crit =
      Except.ok (IcingaCheck.mk
        ((sortStrings (akeys (jnxLoadsOf getRes (jnxREs wres)))).flatMap
          (jnxPerfFor warn crit (jnxLoadsOf getRes (jnxREs wres))))
        ((sortStrings (akeys (jnxLoadsOf getRes (jnxREs wres)))).flatMap
          (jnxMsgsFor f warn crit (jnxLoadsOf getRes (jnxREs wres))))) := by
  unfold jnxLoad
  rw [hw]
  simp only [wrapErr_ok, exc_ok_bind]
  rw [foldlM_ok_mem _
    (fun loads (p : String × String) => upsert loads p.2 (jnxDatOf (getRes p.1) p.1))
    (jnxREs wres) []
    (fun c b hb => by rw [hg b hb]; rfl)]
  simp only [exc_ok_bind]
  rw [foldlM_emit (jnxBlockM (alarmOf f) warn crit _)
    (jnxPerfFor warn crit _) (jnxMsgsFor f warn crit _)
    (jnxBlockM_emit f warn crit _)]
  simp [jnxLoadsOf]

/-- Performance records contributed by the Cisco 1-minute sub-metric:
one record when present, none otherwise. -/
def cisco1mPerf (warn crit : String) (d : List (String × Nat)) (n : String) :
    List PerfData :=
  match alookup d "l1m" with
  | some v => [PerfData.mk ("'" ++ n ++ " 1min'") (toString v) "%" warn crit "0" ""]
  | none => []

/-- Status lines contributed by the Cisco 1-minute sub-metric:
a classified line when present, one "Na" UNKNOWN line otherwise. -/
def cisco1mMsgs (f : Int → String → String → Nat) (warn crit : String)
    (d : List (String × Nat)) : List Msg :=
  match alookup d "l1m" with
  | some v => [Msg.mk (f (Int.ofNat v) warn crit) ("1m " ++ toString v ++ "%")]
  | none => [Msg.mk 3 "1m Na"]

/-- Performance records contributed by the Cisco 5-minute sub-metric. -/
def cisco5mPerf (w5m c5m : String) (d : List (String × Nat)) (n : String) :
    List PerfData :=
  match alookup d "l5m" with
  | some v => [PerfData.mk ("'" ++ n ++ " 5min'") (toString v) "%" w5m c5m "0" ""]
  | none => []

/-- Status lines contributed by the Cisco 5-minute sub-metric. -/
def cisco5mMsgs (f : Int → String → String → Nat) (w5m c5m : String)
    (d : List (String × Nat)) : List Msg :=
  match alookup d "l5m" with
  | some v => [Msg.mk (f (Int.ofNat v) w5m c5m) ("5m " ++ toString v ++ "%")]
  | none => [Msg.mk 3 "5m Na"]

/-- All performance records of one Cisco CPU block (including the
trailing zero-value `dummy` compatibility record). -/
def ciscoPerfFor (warn crit w5m c5m : String)
    (loads : List (String × List (String × Nat))) (n : String) : List PerfData :=
  let d := (alookup loads n).getD []
  cisco1mPerf warn crit d n ++ cisco5mPerf w5m c5m d n ++
    [PerfData.mk "dummy" "0" "" "" "" "" ""]

/-- All status lines of one Cisco CPU block. -/
def ciscoMsgsFor (f : Int → String → String → Nat) (warn crit w5m c5m : String)
    (loads : List (String × List (String × Nat))) (n : String) : List Msg :=
  let d := (alookup loads n).getD []
  Msg.mk 0 n :: (cisco1mMsgs f warn crit d ++ cisco5mMsgs f w5m c5m d)

theorem ciscoBlockM_emit (f : Int → String → String → Nat)
    (warn crit w5m c5m : String) (loads : List (String × List (String × Nat)))
    (c : IcingaCheck) (n : String) :
    ciscoBlockM (alarmOf f) warn crit w5m c5m loads c n =
      Except.ok (IcingaCheck.mk (c.perfData ++ ciscoPerfFor warn crit w5m c5m loads n)
        (c.msgs ++ ciscoMsgsFor f warn crit w5m c5m loads n)) := by
  unfold ciscoBlockM ciscoPerfFor ciscoMsgsFor
  set d := (alookup loads n).getD [] with hd
  cases h1 : alookup d "l1m" <;>
    cases h5 : alookup d "l5m" <;>
      simp [cisco1mPerf, cisco1mMsgs, cisco5mPerf, cisco5mMsgs, h1, h5,
        alarmOf, IcingaCheck.addPerf, IcingaCheck.addMsg]

/-- Evaluation of the whole Cisco strategy when the walk, both `Get`s
and both threshold parses succeed: the emitted output is the
concatenation of the per-CPU blocks in sorted name order, with the
5-minute thresholds derived as the flat offsets w−5, c−5. -/
theorem ciscoLoad_run (sess : Session) (f : Int → String → String → Nat)
    (warn crit : String) (wres entRes loadRes : SnmpOut) (w c : Int)
    (hw : sess.walk cpmCPUTotalPhysicalIndex = Except.ok wres)
    (he : sess.get (ciscoEO (ciscoCpuIDs wres)) = Except.ok entRes)
    (hl : sess.get (ciscoLO (ciscoResolve (ciscoNames0 wres) (ciscoCpuIDs wres)
      entRes)) = Except.ok loadRes)
    (hwa : Atoi warn = Except.ok w) (hcr : Atoi crit = Except.ok c) :
    ciscoLoad sess (alarmOf f) warn crit =
      Except.ok (IcingaCheck.mk
        ((sortStrings (akeys (ciscoLoads (ciscoResolve (ciscoNames0 wres)
            (ciscoCpuIDs wres) entRes) loadRes))).flatMap
          (ciscoPerfFor warn crit (Itoa (w - 5)) (Itoa (c - 5))
            (ciscoLoads (ciscoResolve (ciscoNames0 wres) (ciscoCpuIDs wres) entRes)
              loadRes)))
        ((sortStrings (akeys (ciscoLoads (ciscoResolve (ciscoNames0 wres)
            (ciscoCpuIDs wres) entRes) loadRes))).flatMap
          (ciscoMsgsFor f warn crit (Itoa (w - 5)) (Itoa (c - 5))
            (ciscoLoads (ciscoResolve (ciscoNames0 wres) (ciscoCpuIDs wres) entRes)
              loadRes)))) := by
  unfold ciscoLoad
  rw [hw]
  simp only [wrapErr_ok, exc_ok_bind]
  rw [he]
  simp only [wrapErr_ok, exc_ok_bind]
  rw [hl]
  simp only [wrapErr_ok, exc_ok_bind]
  rw [hwa]
  simp only [wrapErr_ok, exc_ok_bind]
  rw [hcr]
  simp only [wrapErr_ok, exc_ok_bind]
  rw [foldlM_emit (ciscoBlockM (alarmOf f) warn crit (Itoa (w - 5)) (Itoa (c - 5)) _)
    (ciscoPerfFor warn crit (Itoa (w - 5)) (Itoa (c - 5)) _)
    (ciscoMsgsFor f warn crit (Itoa (w - 5)) (Itoa (c - 5)) _)
    (ciscoBlockM_emit f warn crit (Itoa (w - 5)) (Itoa (c - 5)) _)]
  simp

theorem calcCPUData_pos (wres : SnmpOut) (h : ¬ wres.length = 0) :
    calcCPUData wres =
      Except.ok (CpuSummary.mk wres.length
        (mathRoundDiv (loadSumOf wres) wres.length)) := by
  unfold calcCPUData
  simp only [List.length_map]
  rw [if_neg h]
  rfl

theorem calcCPUData_zero (wres : SnmpOut) (h : wres.length = 0) :
    calcCPUData wres = Except.error "CPU count 0 or unknown" := by
  unfold calcCPUData
  simp only [List.length_map]
  rw [if_pos h]

/-- Evaluation of the host strategy on a non-empty walk result. -/
theorem hostLoad_run (sess : Session) (alarm : AlarmFn) (warn crit : String)
    (wres : SnmpOut) (lvl : Nat)
    (hw : sess.walk hrProcessorLoad = Except.ok wres)
    (hne : ¬ wres.length = 0)
    (hal : alarm (mathRoundDiv (loadSumOf wres) wres.length) warn crit =
      Except.ok lvl) :
    hostLoad sess alarm warn crit =
      Except.ok (IcingaCheck.mk
        [PerfData.mk "'cpu usage'"
           (toString (mathRoundDiv (loadSumOf wres) wres.length)) "%" warn crit "0" "100",
         PerfData.mk "'cpu count'" (toString (wres.length : Int)) "" "" "" "" "",
         PerfData.mk "dummy" "0" "" "" "" "" ""]
        [Msg.mk lvl (toString (wres.length : Int) ++ " CPUs; load " ++
           toString (mathRoundDiv (loadSumOf wres) wres.length) ++ "%")]) := by
  unfold hostLoad
  rw [hw]
  simp only [wrapErr_ok, exc_ok_bind]
  rw [calcCPUData_pos wres hne]
  simp only [wrapErr_ok, exc_ok_bind]
  rw [hal]
  simp [IcingaCheck.addPerf, IcingaCheck.addMsg]

/-- Evaluation of the host strategy on an empty walk result: the run
fails before anything is emitted. -/
theorem hostLoad_run_empty (sess : Session) (alarm : AlarmFn) (warn crit : String)
    (wres : SnmpOut)
    (hw : sess.walk hrProcessorLoad = Except.ok wres)
    (h0 : wres.length = 0) :
    hostLoad sess alarm warn crit =
      Except.error "cpu data error: CPU count 0 or unknown" := by
  unfold hostLoad
  rw [hw]
  simp only [wrapErr_ok, exc_ok_bind]
  rw [calcCPUData_zero wres h0]
  simp

/-- Evaluation of the sysstats strategy: a single classification of
used% = 100 − idle% drives the severity of all three status lines. -/
theorem cpuLoad_run (sess : Session) (alarm : AlarmFn) (warn crit : String)
    (res : SnmpOut) (lvl : Nat)
    (hg : sess.get [ssCpuUser, ssCpuSystem, ssCpuRawIdle] = Except.ok res)
    (hal : alarm (100 - (res.getD ssCpuRawIdle).Integer) warn crit =
      Except.ok lvl) :
    cpuLoad sess alarm warn crit =
      Except.ok (IcingaCheck.mk
        [PerfData.mk "cpu_prct_used"
           (toString (100 - (res.getD ssCpuRawIdle).Integer)) "%" warn crit "0" "100",
         PerfData.mk "cpu_prct_user"
           (toString (res.getD ssCpuUser).Integer) "%" "" "" "0" "100",
         PerfData.mk "cpu_prct_system"
           (toString (res.getD ssCpuSystem).Integer) "%" "" "" "0" "100"]
        [Msg.mk lvl ("load " ++ toString (100 - (res.getD ssCpuRawIdle).Integer) ++ "%"),
         Msg.mk lvl ("user " ++ toString (res.getD ssCpuUser).Integer ++ "%"),
         Msg.mk lvl ("system " ++ toString (res.getD ssCpuSystem).Integer ++ "%")]) := by
  unfold cpuLoad
  rw [hg]
  simp only [wrapErr_ok, exc_ok_bind]
  rw [hal]
  simp [IcingaCheck.addPerf, IcingaCheck.addMsg]

/-- Evaluation of the loadavg strategy under an always-classifying alarm
evaluator: the derived pairs are N·w, N·c for 1 minute, N·(w−5), N·(c−5)
for 5 minutes and N·(w−10), N·(c−10) for 15 minutes, and every reported
value is the raw integer divided by 100 in two-decimal form. -/
theorem sysLoad_run (sess : Session) (f : Int → String → String → Nat)
    (warn crit : String) (wres res2 : SnmpOut) (w c : Int)
    (hw : sess.walk hrProcessorLoad = Except.ok wres)
    (hne : ¬ wres.length = 0)
    (hwa : Atoi warn = Except.ok w) (hcr : Atoi crit = Except.ok c)
    (hg : sess.get [laLoadInt ++ ".1", laLoadInt ++ ".2", laLoadInt ++ ".3"] =
      Except.ok res2) :
    sysLoad sess (alarmOf f) warn crit =
      Except.ok (IcingaCheck.mk
        [PerfData.mk "load_1_min" (fmt2dec ((res2.getD (laLoadInt ++ ".1")).Integer)) ""
           (fmt2dec ((wres.length : Int) * w)) (fmt2dec ((wres.length : Int) * c)) "0" "",
         PerfData.mk "load_5_min" (fmt2dec ((res2.getD (laLoadInt ++ ".2")).Integer)) ""
           (fmt2dec ((wres.length : Int) * (w - 5)))
           (fmt2dec ((wres.length : Int) * (c - 5))) "0" "",
         PerfData.mk "load_15_min" (fmt2dec ((res2.getD (laLoadInt ++ ".3")).Integer)) ""
           (fmt2dec ((wres.length : Int) * (w - 10)))
           (fmt2dec ((wres.length : Int) * (c - 10))) "0" ""]
        [Msg.mk 0 (toString wres.length ++ " CPUs"),
         Msg.mk (f ((res2.getD (laLoadInt ++ ".1")).Integer)
             (Itoa ((wres.length : Int) * w)) (Itoa ((wres.length : Int) * c)))
           ("l1 " ++ fmt2dec ((res2.getD (laLoadInt ++ ".1")).Integer)),
         Msg.mk (f ((res2.getD (laLoadInt ++ ".2")).Integer)
             (Itoa ((wres.length : Int) * (w - 5))) (Itoa ((wres.length : Int) * (c - 5))))
           ("l5 " ++ fmt2dec ((res2.getD (laLoadInt ++ ".2")).Integer)),
         Msg.mk (f ((res2.getD (laLoadInt ++ ".3")).Integer)
             (Itoa ((wres.length : Int) * (w - 10))) (Itoa ((wres.length : Int) * (c - 10))))
           ("l15 " ++ fmt2dec ((res2.getD (laLoadInt ++ ".3")).Integer))]) := by
  unfold sysLoad
  rw [hw]
  simp only [wrapErr_ok, exc_ok_bind]
  rw [if_neg hne, hwa]
  simp only [wrapErr_ok, exc_ok_bind]
  rw [hcr]
  simp only [wrapErr_ok, exc_ok_bind]
  rw [hg]
  simp [alarmOf, IcingaCheck.addPerf, IcingaCheck.addMsg, List.foldlM]

/-- Evaluation of the Moxa strategy under an always-classifying alarm
evaluator: the 30-second pair is the flat offset (w−5, c−5) and the
300-second pair the flat offset (w−10, c−10). -/
theorem moxaSwLoad_run (sess : Session) (f : Int → String → String → Nat)
    (warn crit : String) (r1 r2 : SnmpOut) (w c : Int)
    (hg1 : sess.get [sysObjectID] = Except.ok r1)
    (hg2 : sess.get
      [(r1.getD sysObjectID).ObjectIdentifier ++ ".1.53.0",
       (r1.getD sysObjectID).ObjectIdentifier ++ ".1.54.0",
       (r1.getD sysObjectID).ObjectIdentifier ++ ".1.55.0"] = Except.ok r2)
    (hwa : Atoi warn = Except.ok w) (hcr : Atoi crit = Except.ok c) :
    moxaSwLoad sess (alarmOf f) warn crit =
      Except.ok (IcingaCheck.mk
        [PerfData.mk "usage_5s"
           (toString ((r2.getD ((r1.getD sysObjectID).ObjectIdentifier ++ ".1.53.0")).Integer))
           "%" warn crit "0" "100",
         PerfData.mk "usage_30s"
           (toString ((r2.getD ((r1.getD sysObjectID).ObjectIdentifier ++ ".1.54.0")).Integer))
           "%" (Itoa (w - 5)) (Itoa (c - 5)) "0" "100",
         PerfData.mk "usage_300s"
           (toString ((r2.getD ((r1.getD sysObjectID).ObjectIdentifier ++ ".1.55.0")).Integer))
           "%" (Itoa (w - 10)) (Itoa (c - 10)) "0" "100"]
        [Msg.mk (f ((r2.getD ((r1.getD sysObjectID).ObjectIdentifier ++ ".1.53.0")).Integer)
             warn crit)
           ("usage 5s " ++
             toString ((r2.getD ((r1.getD sysObjectID).ObjectIdentifier ++ ".1.53.0")).Integer)
             ++ "%"),
         Msg.mk (f ((r2.getD ((r1.getD sysObjectID).ObjectIdentifier ++ ".1.54.0")).Integer)
             (Itoa (w - 5)) (Itoa (c - 5)))
           ("30s " ++
             toString ((r2.getD ((r1.getD sysObjectID).ObjectIdentifier ++ ".1.54.0")).Integer)
             ++ "%"),
         Msg.mk (f ((r2.getD ((r1.getD sysObjectID).ObjectIdentifier ++ ".1.55.0")).Integer)
             (Itoa (w - 10)) (Itoa (c - 10)))
           ("300s " ++
             toString ((r2.getD ((r1.getD sysObjectID).ObjectIdentifier ++ ".1.55.0")).Integer)
             ++ "%")]) := by
  unfold moxaSwLoad
  rw [hg1]
  simp only [wrapErr_ok, exc_ok_bind]
  rw [hg2]
  simp only [wrapErr_ok, exc_ok_bind]
  rw [hwa]
  simp only [wrapErr_ok, exc_ok_bind]
  rw [hcr]
  simp only [wrapErr_ok, exc_ok_bind]
  simp [alarmOf, IcingaCheck.addPerf, IcingaCheck.addMsg]

/-! ### Concrete example devices and sessions used by witnesses -/

deriving instance DecidableEq for Except

def fZero : Int → String → String → Nat := fun _ _ _ => 0

/-- A graded classifier: WARNING at 20 and above, CRITICAL at 90. -/
def fGrade : Int → String → String → Nat :=
  fun v _ _ => if 90 ≤ v then 2 else if 20 ≤ v then 1 else 0

def exW3 : SnmpOut :=
  [(hrProcessorLoad ++ ".1", { Integer := 10 }),
   (hrProcessorLoad ++ ".2", { Integer := 20 }),
   (hrProcessorLoad ++ ".3", { Integer := 30 })]

def sess3 : Session :=
  Session.mk (fun _ => Except.ok exW3) (fun _ => Except.ok [])

def sessEmpty : Session :=
  Session.mk (fun _ => Except.ok []) (fun _ => Except.ok [])

/-! ### Claim theorems -/

/-- C1: for the host-MIB strategy, a walk with N ≥ 1 rows reports
processor count N and load round(sum/N) (math.Round semantics, agreeing
with mathematical rounding for non-negative sums), and a walk with 0
rows fails with the CPU-count error without emitting anything. -/
theorem claim_C1_hostLoad (sess : Session) (alarm : AlarmFn)
    (warn crit : String) (wres : SnmpOut)
    (hw : sess.walk hrProcessorLoad = Except.ok wres) :
    (wres.length = 0 →
      hostLoad sess alarm warn crit =
        Except.error "cpu data error: CPU count 0 or unknown") ∧
    (∀ lvl, ¬ wres.length = 0 →
      alarm (mathRoundDiv (loadSumOf wres) wres.length) warn crit = Except.ok lvl →
      hostLoad sess alarm warn crit =
        Except.ok (IcingaCheck.mk
          [PerfData.mk "'cpu usage'"
             (toString (mathRoundDiv (loadSumOf wres) wres.length)) "%" warn crit "0" "100",
           PerfData.mk "'cpu count'" (toString (wres.length : Int)) "" "" "" "" "",
           PerfData.mk "dummy" "0" "" "" "" "" ""]
          [Msg.mk lvl (toString (wres.length : Int) ++ " CPUs; load " ++
             toString (mathRoundDiv (loadSumOf wres) wres.length) ++ "%")])) ∧
    (¬ wres.length = 0 → 0 ≤ loadSumOf wres →
      mathRoundDiv (loadSumOf wres) wres.length =
        round ((loadSumOf wres : ℚ) / (wres.length : ℚ))) := by
  refine ⟨fun h0 => hostLoad_run_empty sess alarm warn crit wres hw h0,
    fun lvl hne hal => hostLoad_run sess alarm warn crit wres lvl hw hne hal,
    fun hne hs => mathRoundDiv_eq_round _ _ hs (Nat.pos_of_ne_zero hne)⟩

theorem claim_C1_hostLoad_witness :
    (hostLoad sess3 (alarmOf fZero) "85" "95" =
      Except.ok (IcingaCheck.mk
        [PerfData.mk "'cpu usage'" "20" "%" "85" "95" "0" "100",
         PerfData.mk "'cpu count'" "3" "" "" "" "" "",
         PerfData.mk "dummy" "0" "" "" "" "" ""]
        [Msg.mk 0 "3 CPUs; load 20%"])) ∧
    (mathRoundDiv (loadSumOf exW3) exW3.length =
      round ((loadSumOf exW3 : ℚ) / (exW3.length : ℚ))) ∧
    (hostLoad sessEmpty (alarmOf fZero) "85" "95" =
      Except.error "cpu data error: CPU count 0 or unknown") := by
  refine ⟨?_, ?_, ?_⟩
  · rw [(claim_C1_hostLoad sess3 (alarmOf fZero) "85" "95" exW3 rfl).2.1 0
      (by decide) (by decide)]
    decide
  · exact (claim_C1_hostLoad sess3 (alarmOf fZero) "85" "95" exW3 rfl).2.2
      (by decide) (by decide)
  · exact (claim_C1_hostLoad sessEmpty (alarmOf fZero) "85" "95" [] rfl).1 rfl

/-- C7: the dispatcher recognizes exactly the seven check types
host, sysstats, loadavg, jnx, cisco, rcsw, moxasw, dispatching each to
its strategy, and any other string fails with the unknown-check-type
error without producing output. -/
theorem claim_C7_dispatch (sess : Session) (alarm : AlarmFn)
    (warn crit ctype : String) :
    (ctype = "host" →
      LoadGet sess alarm warn crit ctype = hostLoad sess alarm warn crit) ∧
    (ctype = "sysstats" →
      LoadGet sess alarm warn crit ctype = cpuLoad sess alarm warn crit) ∧
    (ctype = "loadavg" →
      LoadGet sess alarm warn crit ctype = sysLoad sess alarm warn crit) ∧
    (ctype = "jnx" →
      LoadGet sess alarm warn crit ctype = jnxLoad sess alarm warn crit) ∧
    (ctype = "cisco" →
      LoadGet sess alarm warn crit ctype = ciscoLoad sess alarm warn crit) ∧
    (ctype = "rcsw" →
      LoadGet sess alarm warn crit ctype = ruggedSwLoad sess alarm warn crit) ∧
    (ctype = "moxasw" →
      LoadGet sess alarm warn crit ctype = moxaSwLoad sess alarm warn crit) ∧
    (¬ ctype ∈ (["host", "sysstats", "loadavg", "jnx", "cisco", "rcsw",
        "moxasw"] : List String) →
      LoadGet sess alarm warn crit ctype = Except.error "no such check type") := by
  refine ⟨fun h => by rw [h]; rfl, fun h => by rw [h]; rfl,
    fun h => by rw [h]; rfl, fun h => by rw [h]; rfl,
    fun h => by rw [h]; rfl, fun h => by rw [h]; rfl,
    fun h => by rw [h]; rfl, fun h => ?_⟩
  have h1 : ¬ ctype = "host" := fun e => h (by rw [e]; decide)
  have h2 : ¬ ctype = "sysstats" := fun e => h (by rw [e]; decide)
  have h3 : ¬ ctype = "loadavg" := fun e => h (by rw [e]; decide)
  have h4 : ¬ ctype = "jnx" := fun e => h (by rw [e]; decide)
  have h5 : ¬ ctype = "cisco" := fun e => h (by rw [e]; decide)
  have h6 : ¬ ctype = "rcsw" := fun e => h (by rw [e]; decide)
  have h7 : ¬ ctype = "moxasw" := fun e => h (by rw [e]; decide)
  unfold LoadGet
  rw [if_neg h1, if_neg h2, if_neg h3, if_neg h4, if_neg h5, if_neg h6,
    if_neg h7]

theorem claim_C7_dispatch_witness :
    (LoadGet sess3 (alarmOf fZero) "85" "95" "bogus" =
      Except.error "no such check type") ∧
    (LoadGet sess3 (alarmOf fZero) "85" "95" "host" =
      hostLoad sess3 (alarmOf fZero) "85" "95") := by
  exact ⟨(claim_C7_dispatch sess3 (alarmOf fZero) "85" "95" "bogus").2.2.2.2.2.2.2
      (by decide),
    (claim_C7_dispatch sess3 (alarmOf fZero) "85" "95" "host").1 rfl⟩

/-- C9: the sysstats strategy classifies only used% = 100 − idle%
against the operator thresholds (for an arbitrary evaluator, only its
value at used% is ever consulted), and all three status lines carry
that one severity. -/
theorem claim_C9_sysstats_one_severity (sess : Session) (alarm : AlarmFn)
    (warn crit : String) (res : SnmpOut) (lvl : Nat)
    (hg : sess.get [ssCpuUser, ssCpuSystem, ssCpuRawIdle] = Except.ok res)
    (hal : alarm (100 - (res.getD ssCpuRawIdle).Integer) warn crit =
      Except.ok lvl) :
    cpuLoad sess alarm warn crit =
      Except.ok (IcingaCheck.mk
        [PerfData.mk "cpu_prct_used"
           (toString (100 - (res.getD ssCpuRawIdle).Integer)) "%" warn crit "0" "100",
         PerfData.mk "cpu_prct_user"
           (toString (res.getD ssCpuUser).Integer) "%" "" "" "0" "100",
         PerfData.mk "cpu_prct_system"
           (toString (res.getD ssCpuSystem).Integer) "%" "" "" "0" "100"]
        [Msg.mk lvl ("load " ++ toString (100 - (res.getD ssCpuRawIdle).Integer) ++ "%"),
         Msg.mk lvl ("user " ++ toString (res.getD ssCpuUser).Integer ++ "%"),
         Msg.mk lvl ("system " ++ toString (res.getD ssCpuSystem).Integer ++ "%")]) :=
  cpuLoad_run sess alarm warn crit res lvl hg hal

def exResSys : SnmpOut :=
  [(ssCpuUser, { Integer := 12 }), (ssCpuSystem, { Integer := 7 }),
   (ssCpuRawIdle, { Integer := 80 })]

def sessSys : Session :=
  Session.mk (fun _ => Except.ok []) (fun _ => Except.ok exResSys)

theorem claim_C9_sysstats_one_severity_witness :
    cpuLoad sessSys (alarmOf fGrade) "85" "95" =
      Except.ok (IcingaCheck.mk
        [PerfData.mk "cpu_prct_used" "20" "%" "85" "95" "0" "100",
         PerfData.mk "cpu_prct_user" "12" "%" "" "" "0" "100",
         PerfData.mk "cpu_prct_system" "7" "%" "" "" "0" "100"]
        [Msg.mk 1 "load 20%", Msg.mk 1 "user 12%", Msg.mk 1 "system 7%"]) := by
  rw [claim_C9_sysstats_one_severity sessSys (alarmOf fGrade) "85" "95"
    exResSys 1 rfl (by decide)]
  decide

/-- C8 counterexample: on a concrete one-row result the host strategy
emits three performance records (usage, count and a zero `dummy`
record), not exactly two as claimed. -/
theorem claim_C8_counterexample :
    hostLoad sess3 (alarmOf fGrade) "85" "95" =
      Except.ok (IcingaCheck.mk
        [PerfData.mk "'cpu usage'" "20" "%" "85" "95" "0" "100",
         PerfData.mk "'cpu count'" "3" "" "" "" "" "",
         PerfData.mk "dummy" "0" "" "" "" "" ""]
        [Msg.mk 1 "3 CPUs; load 20%"]) ∧
    ¬ ([PerfData.mk "'cpu usage'" "20" "%" "85" "95" "0" "100",
        PerfData.mk "'cpu count'" "3" "" "" "" "" "",
        PerfData.mk "dummy" "0" "" "" "" "" ""] : List PerfData).length = 2 := by
  constructor
  · decide
  · decide

/-- C8 amended: on every non-empty result set the host strategy emits
exactly three performance records — the usage percentage bounded 0–100,
the processor count unbounded, and a zero-value `dummy` compatibility
record — plus one status line combining count and load. -/
theorem claim_C8_hostLoad_records (sess : Session) (alarm : AlarmFn)
    (warn crit : String) (wres : SnmpOut) (lvl : Nat)
    (hw : sess.walk hrProcessorLoad = Except.ok wres)
    (hne : ¬ wres.length = 0)
    (hal : alarm (mathRoundDiv (loadSumOf wres) wres.length) warn crit =
      Except.ok lvl) :
    ∃ check, hostLoad sess alarm warn crit = Except.ok check ∧
      check.perfData =
        [PerfData.mk "'cpu usage'"
           (toString (mathRoundDiv (loadSumOf wres) wres.length)) "%" warn crit "0" "100",
         PerfData.mk "'cpu count'" (toString (wres.length : Int)) "" "" "" "" "",
         PerfData.mk "dummy" "0" "" "" "" "" ""] ∧
      check.perfData.length = 3 ∧
      check.msgs =
        [Msg.mk lvl (toString (wres.length : Int) ++ " CPUs; load " ++
           toString (mathRoundDiv (loadSumOf wres) wres.length) ++ "%")] := by
  exact ⟨_, hostLoad_run sess alarm warn crit wres lvl hw hne hal, rfl, rfl, rfl⟩

def exW1 : SnmpOut := [(hrProcessorLoad ++ ".1", { Integer := 30 })]

def sess1 : Session :=
  Session.mk (fun _ => Except.ok exW1) (fun _ => Except.ok [])

theorem claim_C8_hostLoad_records_witness :
    ∃ check, hostLoad sess1 (alarmOf fGrade) "85" "95" = Except.ok check ∧
      check.perfData =
        [PerfData.mk "'cpu usage'"
           (toString (mathRoundDiv (loadSumOf exW1) exW1.length)) "%" "85" "95" "0" "100",
         PerfData.mk "'cpu count'" (toString (exW1.length : Int)) "" "" "" "" "",
         PerfData.mk "dummy" "0" "" "" "" "" ""] ∧
      check.perfData.length = 3 ∧
      check.msgs =
        [Msg.mk 1 (toString (exW1.length : Int) ++ " CPUs; load " ++
           toString (mathRoundDiv (loadSumOf exW1) exW1.length) ++ "%")] :=
  claim_C8_hostLoad_records sess1 (alarmOf fGrade) "85" "95" exW1 1 rfl
    (by decide) (by decide)

/-- C2: for the loadavg strategy with processor count N ≥ 1 and
integer-parseable thresholds w, c, the derived classification pairs are
(N·w, N·c) for 1 minute, (N·(w−5), N·(c−5)) for 5 minutes and
(N·(w−10), N·(c−10)) for 15 minutes — the offset is subtracted before
multiplying by the count — and every reported performance value is the
raw integer divided by 100 rendered with exactly two decimals. -/
theorem claim_C2_sysLoad (sess : Session) (f : Int → String → String → Nat)
    (warn crit : String) (wres res2 : SnmpOut) (w c : Int)
    (hw : sess.walk hrProcessorLoad = Except.ok wres)
    (hne : ¬ wres.length = 0)
    (hwa : Atoi warn = Except.ok w) (hcr : Atoi crit = Except.ok c)
    (hg : sess.get [laLoadInt ++ ".1", laLoadInt ++ ".2", laLoadInt ++ ".3"] =
      Except.ok res2) :
    sysLoad sess (alarmOf f) warn crit =
      Except.ok (IcingaCheck.mk
        [PerfData.mk "load_1_min" (fmt2dec ((res2.getD (laLoadInt ++ ".1")).Integer)) ""
           (fmt2dec ((wres.length : Int) * w)) (fmt2dec ((wres.length : Int) * c)) "0" "",
         PerfData.mk "load_5_min" (fmt2dec ((res2.getD (laLoadInt ++ ".2")).Integer)) ""
           (fmt2dec ((wres.length : Int) * (w - 5)))
           (fmt2dec ((wres.length : Int) * (c - 5))) "0" "",
         PerfData.mk "load_15_min" (fmt2dec ((res2.getD (laLoadInt ++ ".3")).Integer)) ""
           (fmt2dec ((wres.length : Int) * (w - 10)))
           (fmt2dec ((wres.length : Int) * (c - 10))) "0" ""]
        [Msg.mk 0 (toString wres.length ++ " CPUs"),
         Msg.mk (f ((res2.getD (laLoadInt ++ ".1")).Integer)
             (Itoa ((wres.length : Int) * w)) (Itoa ((wres.length : Int) * c)))
           ("l1 " ++ fmt2dec ((res2.getD (laLoadInt ++ ".1")).Integer)),
         Msg.mk (f ((res2.getD (laLoadInt ++ ".2")).Integer)
             (Itoa ((wres.length : Int) * (w - 5))) (Itoa ((wres.length : Int) * (c - 5))))
           ("l5 " ++ fmt2dec ((res2.getD (laLoadInt ++ ".2")).Integer)),
         Msg.mk (f ((res2.getD (laLoadInt ++ ".3")).Integer)
             (Itoa ((wres.length : Int) * (w - 10))) (Itoa ((wres.length : Int) * (c - 10))))
           ("l15 " ++ fmt2dec ((res2.getD (laLoadInt ++ ".3")).Integer))]) :=
  sysLoad_run sess f warn crit wres res2 w c hw hne hwa hcr hg

def exResLA : SnmpOut :=
  [(laLoadInt ++ ".1", { Integer := 380 }), (laLoadInt ++ ".2", { Integer := 250 }),
   (laLoadInt ++ ".3", { Integer := 200 })]

def exW4 : SnmpOut :=
  [(hrProcessorLoad ++ ".1", { Integer := 10 }),
   (hrProcessorLoad ++ ".2", { Integer := 20 }),
   (hrProcessorLoad ++ ".3", { Integer := 30 }),
   (hrProcessorLoad ++ ".4", { Integer := 40 })]

def sessLA : Session :=
  Session.mk (fun _ => Except.ok exW4) (fun _ => Except.ok exResLA)

theorem claim_C2_sysLoad_witness :
    sysLoad sessLA (alarmOf fGrade) "100" "150" =
      Except.ok (IcingaCheck.mk
        [PerfData.mk "load_1_min" "3.80" "" "4.00" "6.00" "0" "",
         PerfData.mk "load_5_min" "2.50" "" "3.80" "5.80" "0" "",
         PerfData.mk "load_15_min" "2.00" "" "3.60" "5.60" "0" ""]
        [Msg.mk 0 "4 CPUs", Msg.mk 2 "l1 3.80", Msg.mk 2 "l5 2.50",
         Msg.mk 2 "l15 2.00"]) := by
  rw [claim_C2_sysLoad sessLA fGrade "100" "150" exW4 exResLA 100 150 rfl
    (by decide) (by decide) (by decide) rfl]
  decide

def devCisco : String → SnmpValue := fun o =>
  if o = entPhysicalName ++ ".1001" then { OctetString := "Supervisor" }
  else if o = cpmCPUTotal1minRev ++ ".2" then { Gauge32 := 92 }
  else if o = cpmCPUTotal5minRev ++ ".2" then { Gauge32 := 88 }
  else {}

def exWC : SnmpOut := [("2", { Integer := 1001 })]

def sessCisco : Session :=
  Session.mk (fun _ => Except.ok exWC) (fun oids => Except.ok (mkDev devCisco oids))

def devMoxa : String → SnmpValue := fun o =>
  if o = sysObjectID then { ObjectIdentifier := ".1.3.6.1.4.1.8691.7.116" }
  else if o = ".1.3.6.1.4.1.8691.7.116.1.53.0" then { Integer := 50 }
  else if o = ".1.3.6.1.4.1.8691.7.116.1.54.0" then { Integer := 40 }
  else if o = ".1.3.6.1.4.1.8691.7.116.1.55.0" then { Integer := 35 }
  else {}

def sessMoxa : Session :=
  Session.mk (fun _ => Except.ok []) (fun oids => Except.ok (mkDev devMoxa oids))

/-- C3: for integer-parseable thresholds w, c, the Cisco strategy
derives its 5-minute pair as the flat offsets (w−5, c−5) and the Moxa
strategy derives its 30-second pair as (w−5, c−5) and its 300-second
pair as (w−10, c−10); none of these is scaled by any CPU count. -/
theorem claim_C3_flat_offsets :
    (∀ (sess : Session) (f : Int → String → String → Nat)
        (warn crit : String) (wres entRes loadRes : SnmpOut) (w c : Int),
      sess.walk cpmCPUTotalPhysicalIndex = Except.ok wres →
      sess.get (ciscoEO (ciscoCpuIDs wres)) = Except.ok entRes →
      sess.get (ciscoLO (ciscoResolve (ciscoNames0 wres) (ciscoCpuIDs wres)
        entRes)) = Except.ok loadRes →
      Atoi warn = Except.ok w → Atoi crit = Except.ok c →
      ciscoLoad sess (alarmOf f) warn crit =
        Except.ok (IcingaCheck.mk
          ((sortStrings (akeys (ciscoLoads (ciscoResolve (ciscoNames0 wres)
              (ciscoCpuIDs wres) entRes) loadRes))).flatMap
            (ciscoPerfFor warn crit (Itoa (w - 5)) (Itoa (c - 5))
              (ciscoLoads (ciscoResolve (ciscoNames0 wres) (ciscoCpuIDs wres)
                entRes) loadRes)))
          ((sortStrings (akeys (ciscoLoads (ciscoResolve (ciscoNames0 wres)
              (ciscoCpuIDs wres) entRes) loadRes))).flatMap
            (ciscoMsgsFor f warn crit (Itoa (w - 5)) (Itoa (c - 5))
              (ciscoLoads (ciscoResolve (ciscoNames0 wres) (ciscoCpuIDs wres)
                entRes) loadRes))))) ∧
    (∀ (sess : Session) (f : Int → String → String → Nat)
        (warn crit : String) (r1 r2 : SnmpOut) (w c : Int),
      sess.get [sysObjectID] = Except.ok r1 →
      sess.get
        [(r1.getD sysObjectID).ObjectIdentifier ++ ".1.53.0",
         (r1.getD sysObjectID).ObjectIdentifier ++ ".1.54.0",
         (r1.getD sysObjectID).ObjectIdentifier ++ ".1.55.0"] = Except.ok r2 →
      Atoi warn = Except.ok w → Atoi crit = Except.ok c →
      moxaSwLoad sess (alarmOf f) warn crit =
        Except.ok (IcingaCheck.mk
          [PerfData.mk "usage_5s"
             (toString ((r2.getD ((r1.getD sysObjectID).ObjectIdentifier ++ ".1.53.0")).Integer))
             "%" warn crit "0" "100",
           PerfData.mk "usage_30s"
             (toString ((r2.getD ((r1.getD sysObjectID).ObjectIdentifier ++ ".1.54.0")).Integer))
             "%" (Itoa (w - 5)) (Itoa (c - 5)) "0" "100",
           PerfData.mk "usage_300s"
             (toString ((r2.getD ((r1.getD sysObjectID).ObjectIdentifier ++ ".1.55.0")).Integer))
             "%" (Itoa (w - 10)) (Itoa (c - 10)) "0" "100"]
          [Msg.mk (f ((r2.getD ((r1.getD sysObjectID).ObjectIdentifier ++ ".1.53.0")).Integer)
               warn crit)
             ("usage 5s " ++
               toString ((r2.getD ((r1.getD sysObjectID).ObjectIdentifier ++ ".1.53.0")).Integer)
               ++ "%"),
           Msg.mk (f ((r2.getD ((r1.getD sysObjectID).ObjectIdentifier ++ ".1.54.0")).Integer)
               (Itoa (w - 5)) (Itoa (c - 5)))
             ("30s " ++
               toString ((r2.getD ((r1.getD sysObjectID).ObjectIdentifier ++ ".1.54.0")).Integer)
               ++ "%"),
           Msg.mk (f ((r2.getD ((r1.getD sysObjectID).ObjectIdentifier ++ ".1.55.0")).Integer)
               (Itoa (w - 10)) (Itoa (c - 10)))
             ("300s " ++
               toString ((r2.getD ((r1.getD sysObjectID).ObjectIdentifier ++ ".1.55.0")).Integer)
               ++ "%")])) :=
  ⟨fun sess f warn crit wres entRes loadRes w c hw he hl hwa hcr =>
      ciscoLoad_run sess f warn crit wres entRes loadRes w c hw he hl hwa hcr,
    fun sess f warn crit r1 r2 w c hg1 hg2 hwa hcr =>
      moxaSwLoad_run sess f warn crit r1 r2 w c hg1 hg2 hwa hcr⟩

theorem claim_C3_flat_offsets_witness :
    ciscoLoad sessCisco (alarmOf fGrade) "90" "95" =
      Except.ok (IcingaCheck.mk
        [PerfData.mk "'Supervisor 1min'" "92" "%" "90" "95" "0" "",
         PerfData.mk "'Supervisor 5min'" "88" "%" "85" "90" "0" "",
         PerfData.mk "dummy" "0" "" "" "" "" ""]
        [Msg.mk 0 "Supervisor", Msg.mk 2 "1m 92%", Msg.mk 1 "5m 88%"]) ∧
    moxaSwLoad sessMoxa (alarmOf fGrade) "85" "95" =
      Except.ok (IcingaCheck.mk
        [PerfData.mk "usage_5s" "50" "%" "85" "95" "0" "100",
         PerfData.mk "usage_30s" "40" "%" "80" "90" "0" "100",
         PerfData.mk "usage_300s" "35" "%" "75" "85" "0" "100"]
        [Msg.mk 1 "usage 5s 50%", Msg.mk 1 "30s 40%", Msg.mk 1 "300s 35%"]) := by
  constructor
  · rw [claim_C3_flat_offsets.1 sessCisco fGrade "90" "95" exWC
      (mkDev devCisco (ciscoEO (ciscoCpuIDs exWC)))
      (mkDev devCisco (ciscoLO (ciscoResolve (ciscoNames0 exWC)
        (ciscoCpuIDs exWC) (mkDev devCisco (ciscoEO (ciscoCpuIDs exWC))))))
      90 95 rfl rfl rfl (by decide) (by decide)]
    decide
  · rw [claim_C3_flat_offsets.2 sessMoxa fGrade "85" "95"
      (mkDev devMoxa [sysObjectID])
      (mkDev devMoxa
        [((mkDev devMoxa [sysObjectID]).getD sysObjectID).ObjectIdentifier ++ ".1.53.0",
         ((mkDev devMoxa [sysObjectID]).getD sysObjectID).ObjectIdentifier ++ ".1.54.0",
         ((mkDev devMoxa [sysObjectID]).getD sysObjectID).ObjectIdentifier ++ ".1.55.0"])
      85 95 rfl rfl (by decide) (by decide)]
    decide

/-! ### Filter forms of the map-building loops (for walks with distinct
row keys, i.e. genuine Go maps) -/

theorem alookup_isSome_of_mem_akeys {α : Type} :
    ∀ {m : List (String × α)} {k : String}, k ∈ akeys m →
      ∃ v, alookup m k = some v
  | [], _, h => absurd h (List.not_mem_nil _)
  | p :: m, k, h => by
    by_cases hp : p.1 = k
    · exact ⟨p.2, by show (if p.1 = k then some p.2 else _) = _; rw [if_pos hp]⟩
    · rw [akeys_cons, List.mem_cons] at h
      rcases alookup_isSome_of_mem_akeys
        (h.resolve_left (fun e => hp e.symm)) with ⟨v, hv⟩
      exact ⟨v, by show (if p.1 = k then some p.2 else _) = _; rw [if_neg hp]; exact hv⟩

theorem jnxREs_eq (wres : SnmpOut) (hnd : (akeys wres).Nodup) :
    jnxREs wres =
      (wres.filter (fun p =>
        goContains (goToUpper p.2.OctetString) (goToUpper "Routing Engine"))).map
        (fun p => (p.1, p.2.OctetString)) := by
  unfold jnxREs
  have h := foldl_upsert_cond (fun p : String × SnmpValue => p.1)
    (fun p => p.2.OctetString)
    (fun p => goContains (goToUpper p.2.OctetString) (goToUpper "Routing Engine") = true)
    wres []
    (fun b _ _ => List.not_mem_nil _)
    (List.Sublist.nodup (List.Sublist.map _ wres.filter_sublist) hnd)
  simpa using h

theorem ciscoNames0_eq (wres : SnmpOut) (hnd : (akeys wres).Nodup) :
    ciscoNames0 wres =
      (wres.filter (fun p => decide (p.2.Integer = 0))).map
        (fun p => (p.1, "CPU0")) := by
  unfold ciscoNames0
  have h := foldl_upsert_cond (fun p : String × SnmpValue => p.1)
    (fun _ => "CPU0") (fun p => p.2.Integer = 0) wres []
    (fun b _ _ => List.not_mem_nil _)
    (List.Sublist.nodup (List.Sublist.map _ wres.filter_sublist) hnd)
  simpa using h

theorem ciscoCpuIDs_eq (wres : SnmpOut) (hnd : (akeys wres).Nodup) :
    ciscoCpuIDs wres =
      (wres.filter (fun p => !(decide (p.2.Integer = 0)))).map
        (fun p => (p.1, p.2.Integer)) := by
  unfold ciscoCpuIDs
  have h := foldl_upsert_condneg (fun p : String × SnmpValue => p.1)
    (fun p => p.2.Integer) (fun p => p.2.Integer = 0) wres []
    (fun b _ _ => List.not_mem_nil _)
    (List.Sublist.nodup (List.Sublist.map _ wres.filter_sublist) hnd)
  simpa using h

theorem akeys_ciscoNames0 (wres : SnmpOut) (hnd : (akeys wres).Nodup) :
    akeys (ciscoNames0 wres) =
      (wres.filter (fun p => decide (p.2.Integer = 0))).map Prod.fst := by
  rw [ciscoNames0_eq wres hnd]
  unfold akeys
  rw [List.map_map]
  rfl

theorem akeys_ciscoCpuIDs (wres : SnmpOut) (hnd : (akeys wres).Nodup) :
    akeys (ciscoCpuIDs wres) =
      (wres.filter (fun p => !(decide (p.2.Integer = 0)))).map Prod.fst := by
  rw [ciscoCpuIDs_eq wres hnd]
  unfold akeys
  rw [List.map_map]
  rfl

/-- Keys of rows named "CPU0" directly and keys sent to entity-name
resolution are disjoint when the walk keys are distinct. -/
theorem ciscoKeys_disjoint (wres : SnmpOut) (hnd : (akeys wres).Nodup)
    {p : String × Int} (hp : p ∈ ciscoCpuIDs wres) :
    ¬ p.1 ∈ akeys (ciscoNames0 wres) := by
  intro hmem
  rw [akeys_ciscoNames0 wres hnd] at hmem
  rcases List.mem_map.mp hmem with ⟨q, hq, he⟩
  rw [ciscoCpuIDs_eq wres hnd] at hp
  rcases List.mem_map.mp hp with ⟨r, hr, hre⟩
  have hq0 : q.2.Integer = 0 := by simpa using (List.mem_filter.mp hq).2
  have hr0 : ¬ r.2.Integer = 0 := by simpa using (List.mem_filter.mp hr).2
  have hqr : q = r := inj_of_nodup_akeys hnd q (List.mem_filter.mp hq).1
    r (List.mem_filter.mp hr).1 (by rw [he, ← hre])
  exact hr0 (hqr ▸ hq0)

theorem ciscoResolve_eq (wres : SnmpOut) (entRes : SnmpOut)
    (hnd : (akeys wres).Nodup) :
    ciscoResolve (ciscoNames0 wres) (ciscoCpuIDs wres) entRes =
      ciscoNames0 wres ++
        ((ciscoCpuIDs wres).filter (fun p =>
          decide ((entRes.getD (entPhysicalName ++ "." ++ toString p.2)).OctetString ≠ ""))).map
          (fun p => (p.1, (entRes.getD (entPhysicalName ++ "." ++ toString p.2)).OctetString)) := by
  unfold ciscoResolve
  have hsub : ((((ciscoCpuIDs wres).filter (fun p =>
      decide ((entRes.getD (entPhysicalName ++ "." ++ toString p.2)).OctetString ≠ ""))).map
        (Prod.fst)).Nodup) := by
    apply List.Sublist.nodup (List.Sublist.map _ (ciscoCpuIDs wres).filter_sublist)
    show (akeys (ciscoCpuIDs wres)).Nodup
    rw [akeys_ciscoCpuIDs wres hnd]
    exact List.Sublist.nodup (List.Sublist.map _ wres.filter_sublist) hnd
  have h := foldl_upsert_cond (fun p : String × Int => p.1)
    (fun p => (entRes.getD (entPhysicalName ++ "." ++ toString p.2)).OctetString)
    (fun p => (entRes.getD (entPhysicalName ++ "." ++ toString p.2)).OctetString ≠ "")
    (ciscoCpuIDs wres) (ciscoNames0 wres)
    (fun b hb _ => ciscoKeys_disjoint wres hnd hb) hsub
  simpa using h

/-- C6: in the Cisco strategy, a walk row whose physical index is 0 is
named "CPU0" directly and is kept out of the `cpuIDs` map whose values
are the only entity-name lookups issued, and its "CPU0" name survives
the resolution step untouched; a row with a non-zero index whose
entity-name lookup is empty is absent from the final name map, so no
block is keyed by it and nothing is emitted for it. -/
theorem claim_C6_cisco_naming (wres : SnmpOut) (hnd : (akeys wres).Nodup)
    (row : String × SnmpValue) (hrow : row ∈ wres) :
    (row.2.Integer = 0 →
      alookup (ciscoNames0 wres) row.1 = some "CPU0" ∧
      ¬ row.1 ∈ akeys (ciscoCpuIDs wres) ∧
      (∀ entRes : SnmpOut,
        alookup (ciscoResolve (ciscoNames0 wres) (ciscoCpuIDs wres) entRes)
          row.1 = some "CPU0")) ∧
    (¬ row.2.Integer = 0 → ∀ entRes : SnmpOut,
      (entRes.getD (entPhysicalName ++ "." ++ toString row.2.Integer)).OctetString = "" →
      ¬ row.1 ∈ akeys (ciscoResolve (ciscoNames0 wres) (ciscoCpuIDs wres) entRes)) := by
  constructor
  · intro h0
    have hmem0 : (row.1, "CPU0") ∈ ciscoNames0 wres := by
      rw [ciscoNames0_eq wres hnd]
      exact List.mem_map.mpr
        ⟨row, List.mem_filter.mpr ⟨hrow, by simpa using h0⟩, rfl⟩
    have hnd0 : (akeys (ciscoNames0 wres)).Nodup := by
      rw [akeys_ciscoNames0 wres hnd]
      exact List.Sublist.nodup (List.Sublist.map _ wres.filter_sublist) hnd
    have ha1 : alookup (ciscoNames0 wres) row.1 = some "CPU0" :=
      alookup_of_mem_nodup hmem0 hnd0
    have hkey : row.1 ∈ akeys (ciscoNames0 wres) :=
      List.mem_map.mpr ⟨(row.1, "CPU0"), hmem0, rfl⟩
    refine ⟨ha1, ?_, ?_⟩
    · intro hmem
      rw [akeys_ciscoCpuIDs wres hnd] at hmem
      rcases List.mem_map.mp hmem with ⟨r, hr, hre⟩
      have := inj_of_nodup_akeys hnd r (List.mem_filter.mp hr).1 row hrow hre
      have hr0 : ¬ r.2.Integer = 0 := by simpa using (List.mem_filter.mp hr).2
      exact hr0 (this ▸ h0)
    · intro entRes
      rw [ciscoResolve_eq wres entRes hnd, alookup_append, if_pos hkey]
      exact ha1
  · intro hne0 entRes hempty hmem
    rw [ciscoResolve_eq wres entRes hnd, akeys_append] at hmem
    rcases List.mem_append.mp hmem with h1 | h1
    · rw [akeys_ciscoNames0 wres hnd] at h1
      rcases List.mem_map.mp h1 with ⟨q, hq, hqe⟩
      have := inj_of_nodup_akeys hnd q (List.mem_filter.mp hq).1 row hrow hqe
      have hq0 : q.2.Integer = 0 := by simpa using (List.mem_filter.mp hq).2
      exact hne0 (this ▸ hq0)
    · unfold akeys at h1
      rw [List.map_map] at h1
      rcases List.mem_map.mp h1 with ⟨p, hp, hpe⟩
      have hpc : p ∈ ciscoCpuIDs wres := (List.mem_filter.mp hp).1
      have hcond : (entRes.getD
          (entPhysicalName ++ "." ++ toString p.2)).OctetString ≠ "" := by
        simpa using (List.mem_filter.mp hp).2
      rw [ciscoCpuIDs_eq wres hnd] at hpc
      rcases List.mem_map.mp hpc with ⟨r, hr, hre⟩
      have hr1 : r.1 = row.1 := by
        rw [← hpe, ← hre]
        rfl
      have hrr : r = row := inj_of_nodup_akeys hnd r (List.mem_filter.mp hr).1
        row hrow hr1
      apply hcond
      rw [← hre]
      show (entRes.getD (entPhysicalName ++ "." ++ toString r.2.Integer)).OctetString = ""
      rw [hrr]
      exact hempty

def exWC6 : SnmpOut :=
  [("1", { Integer := 0 }), ("2", { Integer := 1001 }), ("3", { Integer := 1002 })]

theorem claim_C6_cisco_naming_witness :
    (alookup (ciscoNames0 exWC6) "1" = some "CPU0" ∧
      ¬ "1" ∈ akeys (ciscoCpuIDs exWC6) ∧
      alookup (ciscoResolve (ciscoNames0 exWC6) (ciscoCpuIDs exWC6)
        (mkDev devCisco (ciscoEO (ciscoCpuIDs exWC6)))) "1" = some "CPU0") ∧
    ¬ "3" ∈ akeys (ciscoResolve (ciscoNames0 exWC6) (ciscoCpuIDs exWC6)
      (mkDev devCisco (ciscoEO (ciscoCpuIDs exWC6)))) := by
  have h1 := claim_C6_cisco_naming exWC6 (by decide) ("1", { Integer := 0 })
    (by decide)
  have h3 := claim_C6_cisco_naming exWC6 (by decide) ("3", { Integer := 1002 })
    (by decide)
  rcases h1.1 rfl with ⟨ha, hb, hc⟩
  exact ⟨⟨ha, hb, hc _⟩,
    h3.2 (by decide) (mkDev devCisco (ciscoEO (ciscoCpuIDs exWC6))) (by decide)⟩

/-! ### Claims C4 and C10 -/

def sessJnxNa : Session :=
  Session.mk (fun _ => Except.ok [("1", { OctetString := "Routing Engine 0" })])
    (fun _ => Except.ok [])

/-- C4 counterexample: a Juniper engine whose three per-engine OIDs are
all absent from the fetched result set.  The run does not abort, but
contrary to the claim no "Na"/UNKNOWN status line is produced and no
performance record is suppressed: the absent gauges read as the Go zero
value 0 and are classified and emitted normally. -/
theorem claim_C4_counterexample :
    jnxLoad sessJnxNa (alarmOf fZero) "85" "95" =
      Except.ok (IcingaCheck.mk
        [PerfData.mk "'Routing Engine 0 util'" "0" "%" "85" "95" "0" "",
         PerfData.mk "'Routing Engine 0 load1'" "0" "%" "" "" "0" "",
         PerfData.mk "'Routing Engine 0 load5'" "0" "%" "" "" "0" ""]
        [Msg.mk 0 "Routing Engine 0", Msg.mk 0 "util 0%", Msg.mk 0 "load1 0%",
         Msg.mk 0 "load5 0%"]) ∧
    ([Msg.mk 0 "Routing Engine 0", Msg.mk 0 "util 0%", Msg.mk 0 "load1 0%",
      Msg.mk 0 "load5 0%"] : List Msg).all (fun m => decide (¬ m.level = 3)) = true ∧
    ¬ ([PerfData.mk "'Routing Engine 0 util'" "0" "%" "85" "95" "0" "",
        PerfData.mk "'Routing Engine 0 load1'" "0" "%" "" "" "0" "",
        PerfData.mk "'Routing Engine 0 load5'" "0" "%" "" "" "0" ""] : List PerfData).length
      = 0 := by
  refine ⟨by decide, by decide, by decide⟩

theorem alookup_jnxDatOf_util (r : SnmpOut) (i : String) :
    alookup (jnxDatOf r i) "util" =
      some ((r.getD (jnxOperatingCPU ++ "." ++ i)).Gauge32) := rfl

theorem alookup_jnxDatOf_load1 (r : SnmpOut) (i : String) :
    alookup (jnxDatOf r i) ("load" ++ "1") =
      some ((r.getD (jnxOperating1MinLoadAvg ++ "." ++ i)).Gauge32) := rfl

theorem alookup_jnxDatOf_load5 (r : SnmpOut) (i : String) :
    alookup (jnxDatOf r i) ("load" ++ "5") =
      some ((r.getD (jnxOperating5MinLoadAvg ++ "." ++ i)).Gauge32) := rfl

/-- C4 amended: for the Cisco strategy the claim holds — an absent
1-minute or 5-minute sub-metric never aborts the run, contributes
exactly the one status line "1m Na"/"5m Na" with severity UNKNOWN and
no performance record, while a present sub-metric is classified and
emitted normally.  For the Juniper strategy the claim fails: the
per-engine metrics map is built with all three keys unconditionally, so
an absent sub-metric reads as gauge 0 and is classified and emitted
normally; the "Na" branches are unreachable and no block ever contains
an "Na" line. -/
theorem claim_C4_missing_submetrics :
    (∀ (sess : Session) (f : Int → String → String → Nat) (warn crit : String)
        (wres : SnmpOut) (getRes : String → SnmpOut),
      sess.walk jnxOperatingDescr = Except.ok wres →
      (∀ p ∈ jnxREs wres, sess.get (jnxOids p.1) = Except.ok (getRes p.1)) →
      jnxLoad sess (alarmOf f) warn crit =
        Except.ok (IcingaCheck.mk
          ((sortStrings (akeys (jnxLoadsOf getRes (jnxREs wres)))).flatMap
            (jnxPerfFor warn crit (jnxLoadsOf getRes (jnxREs wres))))
          ((sortStrings (akeys (jnxLoadsOf getRes (jnxREs wres)))).flatMap
            (jnxMsgsFor f warn crit (jnxLoadsOf getRes (jnxREs wres))))) ∧
      (∀ n ∈ akeys (jnxLoadsOf getRes (jnxREs wres)), ∃ i,
        alookup (jnxLoadsOf getRes (jnxREs wres)) n = some (jnxDatOf (getRes i) i) ∧
        jnxMsgsFor f warn crit (jnxLoadsOf getRes (jnxREs wres)) n =
          [Msg.mk 0 n,
           Msg.mk (f (Int.ofNat (((getRes i).getD (jnxOperatingCPU ++ "." ++ i)).Gauge32))
               warn crit)
             ("util " ++ toString (((getRes i).getD (jnxOperatingCPU ++ "." ++ i)).Gauge32)
               ++ "%"),
           Msg.mk 0 ("load1 " ++
             toString (((getRes i).getD (jnxOperating1MinLoadAvg ++ "." ++ i)).Gauge32) ++ "%"),
           Msg.mk 0 ("load5 " ++
             toString (((getRes i).getD (jnxOperating5MinLoadAvg ++ "." ++ i)).Gauge32) ++ "%")])) ∧
    (∀ (f : Int → String → String → Nat) (warn crit w5m c5m n : String)
        (d : List (String × Nat)),
      (alookup d "l1m" = none →
        cisco1mMsgs f warn crit d = [Msg.mk 3 "1m Na"] ∧
        cisco1mPerf warn crit d n = []) ∧
      (∀ v, alookup d "l1m" = some v →
        cisco1mMsgs f warn crit d =
          [Msg.mk (f (Int.ofNat v) warn crit) ("1m " ++ toString v ++ "%")] ∧
        cisco1mPerf warn crit d n =
          [PerfData.mk ("'" ++ n ++ " 1min'") (toString v) "%" warn crit "0" ""]) ∧
      (alookup d "l5m" = none →
        cisco5mMsgs f w5m c5m d = [Msg.mk 3 "5m Na"] ∧
        cisco5mPerf w5m c5m d n = []) ∧
      (∀ v, alookup d "l5m" = some v →
        cisco5mMsgs f w5m c5m d =
          [Msg.mk (f (Int.ofNat v) w5m c5m) ("5m " ++ toString v ++ "%")] ∧
        cisco5mPerf w5m c5m d n =
          [PerfData.mk ("'" ++ n ++ " 5min'") (toString v) "%" w5m c5m "0" ""]) ∧
      (∀ loads : List (String × List (String × Nat)),
        ciscoMsgsFor f warn crit w5m c5m loads n =
          Msg.mk 0 n :: (cisco1mMsgs f warn crit ((alookup loads n).getD []) ++
            cisco5mMsgs f w5m c5m ((alookup loads n).getD [])))) := by
  constructor
  · intro sess f warn crit wres getRes hw hg
    refine ⟨jnxLoad_run sess f warn crit wres getRes hw hg, ?_⟩
    intro n hn
    rcases alookup_isSome_of_mem_akeys hn with ⟨v, hv⟩
    rcases mem_foldl_upsert (fun p : String × String => p.2)
      (fun p => jnxDatOf (getRes p.1) p.1) (jnxREs wres) [] (n, v)
      (alookup_mem hv) with h1 | h1
    · exact absurd h1 (List.not_mem_nil _)
    · rcases h1 with ⟨p, _, he⟩
      have hv2 : v = jnxDatOf (getRes p.1) p.1 := congrArg Prod.snd he
      refine ⟨p.1, hv.trans (congrArg some hv2), ?_⟩
      unfold jnxMsgsFor
      rw [hv]
      simp only [Option.getD_some]
      rw [hv2]
      unfold jnxUtilMsgs jnxLoadTMsgs
      rw [alookup_jnxDatOf_util, alookup_jnxDatOf_load1, alookup_jnxDatOf_load5]
      simp
  · intro f warn crit w5m c5m n d
    refine ⟨fun h => ?_, fun v h => ?_, fun h => ?_, fun v h => ?_, fun loads => rfl⟩
    · exact ⟨by unfold cisco1mMsgs; rw [h], by unfold cisco1mPerf; rw [h]⟩
    · exact ⟨by unfold cisco1mMsgs; rw [h], by unfold cisco1mPerf; rw [h]⟩
    · exact ⟨by unfold cisco5mMsgs; rw [h], by unfold cisco5mPerf; rw [h]⟩
    · exact ⟨by unfold cisco5mMsgs; rw [h], by unfold cisco5mPerf; rw [h]⟩

theorem claim_C4_missing_submetrics_witness :
    jnxLoad sessJnxNa (alarmOf fZero) "85" "95" =
      Except.ok (IcingaCheck.mk
        [PerfData.mk "'Routing Engine 0 util'" "0" "%" "85" "95" "0" "",
         PerfData.mk "'Routing Engine 0 load1'" "0" "%" "" "" "0" "",
         PerfData.mk "'Routing Engine 0 load5'" "0" "%" "" "" "0" ""]
        [Msg.mk 0 "Routing Engine 0", Msg.mk 0 "util 0%", Msg.mk 0 "load1 0%",
         Msg.mk 0 "load5 0%"]) ∧
    (cisco1mMsgs fGrade "90" "95" [] = [Msg.mk 3 "1m Na"] ∧
     cisco1mPerf "90" "95" [] "CPU0" = []) ∧
    (cisco1mMsgs fGrade "90" "95" [("l1m", 92)] = [Msg.mk 2 "1m 92%"]) := by
  refine ⟨?_, ?_, ?_⟩
  · rw [(claim_C4_missing_submetrics.1 sessJnxNa fZero "85" "95"
      [("1", { OctetString := "Routing Engine 0" })] (fun _ => []) rfl
      (fun _ _ => rfl)).1]
    decide
  · exact (claim_C4_missing_submetrics.2 fGrade "90" "95" "85" "90" "CPU0" []).1 rfl
  · have h := (claim_C4_missing_submetrics.2 fGrade "90" "95" "85" "90" "CPU0"
      [("l1m", 92)]).2.1 92 rfl
    rw [h.1]
    decide

def exWJdup : SnmpOut :=
  [("1", { OctetString := "Routing Engine" }), ("2", { OctetString := "Routing Engine" })]

def devJdup : String → SnmpValue := fun o =>
  if o = jnxOperatingCPU ++ ".1" then { Gauge32 := 11 }
  else if o = jnxOperatingCPU ++ ".2" then { Gauge32 := 22 }
  else if o = jnxOperating1MinLoadAvg ++ ".1" then { Gauge32 := 1 }
  else if o = jnxOperating1MinLoadAvg ++ ".2" then { Gauge32 := 2 }
  else if o = jnxOperating5MinLoadAvg ++ ".1" then { Gauge32 := 5 }
  else if o = jnxOperating5MinLoadAvg ++ ".2" then { Gauge32 := 7 }
  else {}

def sessJdup : Session :=
  Session.mk (fun _ => Except.ok exWJdup) (fun oids => Except.ok (mkDev devJdup oids))

def exWCdup : SnmpOut := [("1", { Integer := 0 }), ("2", { Integer := 0 })]

def devCdup : String → SnmpValue := fun o =>
  if o = cpmCPUTotal1minRev ++ ".1" then { Gauge32 := 10 }
  else if o = cpmCPUTotal5minRev ++ ".1" then { Gauge32 := 20 }
  else if o = cpmCPUTotal1minRev ++ ".2" then { Gauge32 := 30 }
  else if o = cpmCPUTotal5minRev ++ ".2" then { Gauge32 := 40 }
  else {}

def sessCdup : Session :=
  Session.mk (fun _ => Except.ok exWCdup) (fun oids => Except.ok (mkDev devCdup oids))

/-- C10: metrics are keyed by resolved entity name, so two Juniper walk
rows with the identical description "Routing Engine" collapse to one
entry (the metrics of the second row overwrite the first row's: util 22
from index 2, not 11 from index 1), and two Cisco rows that both carry
physical index 0 are both named "CPU0" and collapse to one emitted
block (with the second row's 1m=30, 5m=40, not the first row's 10/20). -/
theorem claim_C10_name_collisions :
    exWJdup.length = 2 ∧
    jnxLoad sessJdup (alarmOf fGrade) "85" "95" =
      Except.ok (IcingaCheck.mk
        [PerfData.mk "'Routing Engine util'" "22" "%" "85" "95" "0" "",
         PerfData.mk "'Routing Engine load1'" "2" "%" "" "" "0" "",
         PerfData.mk "'Routing Engine load5'" "7" "%" "" "" "0" ""]
        [Msg.mk 0 "Routing Engine", Msg.mk 1 "util 22%", Msg.mk 0 "load1 2%",
         Msg.mk 0 "load5 7%"]) ∧
    exWCdup.length = 2 ∧
    ciscoLoad sessCdup (alarmOf fGrade) "90" "95" =
      Except.ok (IcingaCheck.mk
        [PerfData.mk "'CPU0 1min'" "30" "%" "90" "95" "0" "",
         PerfData.mk "'CPU0 5min'" "40" "%" "85" "90" "0" "",
         PerfData.mk "dummy" "0" "" "" "" "" ""]
        [Msg.mk 0 "CPU0", Msg.mk 1 "1m 30%", Msg.mk 1 "5m 40%"]) := by
  refine ⟨rfl, by decide, rfl, by decide⟩

/-! ### Entity ordering (claim C5) -/

/-- The Juniper block order: the routing-engine names collected from
the walk, deduplicated in map-key fashion and sorted. -/
def jnxOrder (wres : SnmpOut) : List String :=
  sortStrings (((jnxREs wres).map (fun p => p.2)).foldl addKey [])

theorem akeys_jnxLoadsOf (getRes : String → SnmpOut)
    (re : List (String × String)) :
    akeys (jnxLoadsOf getRes re) = (re.map (fun p => p.2)).foldl addKey [] := by
  unfold jnxLoadsOf
  exact akeys_foldl_upsert (fun p => p.2) (fun p => jnxDatOf (getRes p.1) p.1) re []

theorem jnxOrder_eq (wres : SnmpOut) (getRes : String → SnmpOut) :
    sortStrings (akeys (jnxLoadsOf getRes (jnxREs wres))) = jnxOrder wres := by
  rw [akeys_jnxLoadsOf]
  rfl

theorem sortStrings_addKey_perm {l₁ l₂ : List String} (h : List.Perm l₁ l₂) :
    sortStrings (l₁.foldl addKey []) = sortStrings (l₂.foldl addKey []) := by
  apply sortStrings_canon (nodup_foldl_addKey l₁ [] List.nodup_nil)
    (nodup_foldl_addKey l₂ [] List.nodup_nil)
  rw [toFinset_foldl_addKey, toFinset_foldl_addKey, List.toFinset_nil,
    Finset.empty_union, Finset.empty_union]
  exact List.toFinset_eq_of_perm _ _ h

theorem jnxOrder_sorted (wres : SnmpOut) : List.Sorted (· < ·) (jnxOrder wres) :=
  sortStrings_sorted_lt (nodup_foldl_addKey _ [] List.nodup_nil)

theorem jnxOrder_perm {wres wres' : SnmpOut} (h₁ : (akeys wres).Nodup)
    (h₂ : (akeys wres').Nodup) (hp : List.Perm wres wres') :
    jnxOrder wres = jnxOrder wres' := by
  unfold jnxOrder
  apply sortStrings_addKey_perm
  rw [jnxREs_eq wres h₁, jnxREs_eq wres' h₂, List.map_map, List.map_map]
  exact (hp.filter _).map _

/-- The final Cisco name map, as a pure function of the walk result and
a consistent device assignment. -/
def ciscoNamesD (wres : SnmpOut) (dev : String → SnmpValue) :
    List (String × String) :=
  ciscoNames0 wres ++
    ((ciscoCpuIDs wres).filter (fun p =>
      decide ((dev (entPhysicalName ++ "." ++ toString p.2)).OctetString ≠ ""))).map
      (fun p => (p.1, (dev (entPhysicalName ++ "." ++ toString p.2)).OctetString))

theorem ciscoResolve_mkDev (wres : SnmpOut) (dev : String → SnmpValue)
    (hnd : (akeys wres).Nodup) :
    ciscoResolve (ciscoNames0 wres) (ciscoCpuIDs wres)
      (mkDev dev (ciscoEO (ciscoCpuIDs wres))) = ciscoNamesD wres dev := by
  rw [ciscoResolve_eq wres _ hnd]
  unfold ciscoNamesD
  have hpt : ∀ p ∈ ciscoCpuIDs wres,
      (mkDev dev (ciscoEO (ciscoCpuIDs wres))).getD
        (entPhysicalName ++ "." ++ toString p.2) =
        dev (entPhysicalName ++ "." ++ toString p.2) := by
    intro p hp
    exact getD_mkDev (List.mem_map_of_mem _ hp)
  congr 1
  rw [List.filter_congr (fun p hp => by rw [hpt p hp])]
  apply List.map_congr_left
  intro p hp
  rw [hpt p (List.mem_filter.mp hp).1]

/-- The Cisco block order: the resolved CPU names, deduplicated in
map-key fashion and sorted. -/
def ciscoOrder (wres : SnmpOut) (dev : String → SnmpValue) : List String :=
  sortStrings (((ciscoNamesD wres dev).map (fun p => p.2)).foldl addKey [])

theorem akeys_ciscoLoads (names : List (String × String)) (loadRes : SnmpOut) :
    akeys (ciscoLoads names loadRes) = (names.map (fun p => p.2)).foldl addKey [] := by
  unfold ciscoLoads
  exact akeys_foldl_upsert (fun p => p.2) (fun p => ciscoDatOf loadRes p.1) names []

theorem ciscoOrder_sorted (wres : SnmpOut) (dev : String → SnmpValue) :
    List.Sorted (· < ·) (ciscoOrder wres dev) :=
  sortStrings_sorted_lt (nodup_foldl_addKey _ [] List.nodup_nil)

theorem ciscoOrder_perm {wres wres' : SnmpOut} (dev : String → SnmpValue)
    (h₁ : (akeys wres).Nodup) (h₂ : (akeys wres').Nodup)
    (hp : List.Perm wres wres') : ciscoOrder wres dev = ciscoOrder wres' dev := by
  unfold ciscoOrder
  apply sortStrings_addKey_perm
  unfold ciscoNamesD
  rw [List.map_append, List.map_append]
  apply List.Perm.append
  · rw [ciscoNames0_eq wres h₁, ciscoNames0_eq wres' h₂, List.map_map,
      List.map_map]
    exact (hp.filter _).map _
  · rw [ciscoCpuIDs_eq wres h₁, ciscoCpuIDs_eq wres' h₂, List.map_map,
      List.map_map]
    rw [List.filter_map, List.filter_map]
    rw [List.map_map, List.map_map]
    exact ((hp.filter _).filter _).map _

/-- C5: the Juniper and Cisco strategies emit their per-entity blocks as
the concatenation over a name list that is strictly sorted ascending
(lexicographically), and for result sets with distinct row keys that
name list is invariant under any permutation of the SNMP walk
enumeration order. -/
theorem claim_C5_block_order :
    (∀ (sess : Session) (f : Int → String → String → Nat) (warn crit : String)
        (wres : SnmpOut) (getRes : String → SnmpOut),
      sess.walk jnxOperatingDescr = Except.ok wres →
      (∀ p ∈ jnxREs wres, sess.get (jnxOids p.1) = Except.ok (getRes p.1)) →
      jnxLoad sess (alarmOf f) warn crit =
        Except.ok (IcingaCheck.mk
          ((jnxOrder wres).flatMap
            (jnxPerfFor warn crit (jnxLoadsOf getRes (jnxREs wres))))
          ((jnxOrder wres).flatMap
            (jnxMsgsFor f warn crit (jnxLoadsOf getRes (jnxREs wres))))) ∧
      List.Sorted (· < ·) (jnxOrder wres)) ∧
    (∀ wres wres' : SnmpOut, (akeys wres).Nodup → (akeys wres').Nodup →
      List.Perm wres wres' → jnxOrder wres = jnxOrder wres') ∧
    (∀ (sess : Session) (dev : String → SnmpValue)
        (f : Int → String → String → Nat) (warn crit : String)
        (wres : SnmpOut) (w c : Int),
      (akeys wres).Nodup →
      sess.walk cpmCPUTotalPhysicalIndex = Except.ok wres →
      (∀ oids, sess.get oids = Except.ok (mkDev dev oids)) →
      Atoi warn = Except.ok w → Atoi crit = Except.ok c →
      ciscoLoad sess (alarmOf f) warn crit =
        Except.ok (IcingaCheck.mk
          ((ciscoOrder wres dev).flatMap
            (ciscoPerfFor warn crit (Itoa (w - 5)) (Itoa (c - 5))
              (ciscoLoads (ciscoNamesD wres dev)
                (mkDev dev (ciscoLO (ciscoNamesD wres dev))))))
          ((ciscoOrder wres dev).flatMap
            (ciscoMsgsFor f warn crit (Itoa (w - 5)) (Itoa (c - 5))
              (ciscoLoads (ciscoNamesD wres dev)
                (mkDev dev (ciscoLO (ciscoNamesD wres dev))))))) ∧
      List.Sorted (· < ·) (ciscoOrder wres dev)) ∧
    (∀ (wres wres' : SnmpOut) (dev : String → SnmpValue),
      (akeys wres).Nodup → (akeys wres').Nodup →
      List.Perm wres wres' → ciscoOrder wres dev = ciscoOrder wres' dev) := by
  refine ⟨?_, ?_, ?_, ?_⟩
  · intro sess f warn crit wres getRes hw hg
    have hrun := jnxLoad_run sess f warn crit wres getRes hw hg
    rw [jnxOrder_eq] at hrun
    exact ⟨hrun, jnxOrder_sorted wres⟩
  · intro wres wres' h₁ h₂ hp
    exact jnxOrder_perm h₁ h₂ hp
  · intro sess dev f warn crit wres w c hnd hw hget hwa hcr
    have hrun := ciscoLoad_run sess f warn crit wres
      (mkDev dev (ciscoEO (ciscoCpuIDs wres)))
      (mkDev dev (ciscoLO (ciscoResolve (ciscoNames0 wres) (ciscoCpuIDs wres)
        (mkDev dev (ciscoEO (ciscoCpuIDs wres))))))
      w c hw (hget _) (hget _) hwa hcr
    rw [ciscoResolve_mkDev wres dev hnd] at hrun
    rw [akeys_ciscoLoads] at hrun
    exact ⟨hrun, ciscoOrder_sorted wres dev⟩
  · intro wres wres' dev h₁ h₂ hp
    exact ciscoOrder_perm dev h₁ h₂ hp

def exWC6R : SnmpOut :=
  [("3", { Integer := 1002 }), ("2", { Integer := 1001 }), ("1", { Integer := 0 })]

def exWJdupR : SnmpOut :=
  [("2", { OctetString := "Routing Engine" }), ("1", { OctetString := "Routing Engine" })]

theorem claim_C5_block_order_witness :
    (jnxLoad sessJdup (alarmOf fGrade) "85" "95" =
      Except.ok (IcingaCheck.mk
        ((jnxOrder exWJdup).flatMap
          (jnxPerfFor "85" "95"
            (jnxLoadsOf (fun i => mkDev devJdup (jnxOids i)) (jnxREs exWJdup))))
        ((jnxOrder exWJdup).flatMap
          (jnxMsgsFor fGrade "85" "95"
            (jnxLoadsOf (fun i => mkDev devJdup (jnxOids i)) (jnxREs exWJdup))))) ∧
      List.Sorted (· < ·) (jnxOrder exWJdup)) ∧
    jnxOrder exWJdup = jnxOrder exWJdupR ∧
    (ciscoLoad sessCisco (alarmOf fGrade) "90" "95" =
      Except.ok (IcingaCheck.mk
        ((ciscoOrder exWC devCisco).flatMap
          (ciscoPerfFor "90" "95" (Itoa (90 - 5)) (Itoa (95 - 5))
            (ciscoLoads (ciscoNamesD exWC devCisco)
              (mkDev devCisco (ciscoLO (ciscoNamesD exWC devCisco))))))
        ((ciscoOrder exWC devCisco).flatMap
          (ciscoMsgsFor fGrade "90" "95" (Itoa (90 - 5)) (Itoa (95 - 5))
            (ciscoLoads (ciscoNamesD exWC devCisco)
              (mkDev devCisco (ciscoLO (ciscoNamesD exWC devCisco))))))) ∧
      List.Sorted (· < ·) (ciscoOrder exWC devCisco)) ∧
    ciscoOrder exWC6 devCisco = ciscoOrder exWC6R devCisco := by
  refine ⟨?_, ?_, ?_, ?_⟩
  · exact claim_C5_block_order.1 sessJdup fGrade "85" "95" exWJdup
      (fun i => mkDev devJdup (jnxOids i)) rfl (fun _ _ => rfl)
  · exact claim_C5_block_order.2.1 exWJdup exWJdupR (by decide) (by decide)
      (by decide)
  · exact claim_C5_block_order.2.2.1 sessCisco devCisco fGrade "90" "95" exWC
      90 95 (by decide) rfl (fun _ => rfl) (by decide) (by decide)
  · exact claim_C5_block_order.2.2.2 exWC6 exWC6R devCisco (by decide)
      (by decide) (by decide)
